import Mathlib

/-!
# Global wellbeing index backend: aggregation pipeline, dual gate, record store

A shallow embedding of `src/server.js`, `src/config/passport.js`,
`src/models/record.js` and `src/models/user.js`.

Modelling conventions.

* JavaScript values that travel through the program (upstream response bodies,
  query parameters, response objects) are `JVal`, a JSON-shaped value type with
  the two extra primitives `undefined` and `null`.  Numbers are rationals: every
  finite JSON number is one, and the program never does arithmetic on them.
* A rejected promise or a thrown exception is `Except.error e` with `e : JsError`;
  `try … catch` is `tryCatch`.
* An outbound `axios.get` is an oracle of the `World`: it yields either a
  rejection or `response.data`.  Each route handler also returns the list of
  outbound calls it issued, in order.
* A response body that is a plain object is recorded as the client receives
  it: `res.json` serialises with `JSON.stringify`, which omits object properties
  whose value is `undefined` (`JVal.wire`).
* The document store is explicit state (`Db`), passed through the handlers.
  Mongoose's casts of raw request values to the schema types are library
  behaviour and enter as a parameter (`Mongoose`).
-/

namespace Wellbeing

/-! ## JavaScript values -/

/-- JSON-shaped JavaScript values. -/
inductive JVal where
  | undefined
  | null
  | bool (b : Bool)
  | num (q : Rat)
  | str (s : String)
  | arr (xs : List JVal)
  | obj (kvs : List (String × JVal))

instance : Inhabited JVal := ⟨JVal.undefined⟩

/-- A thrown JavaScript error: its class name and its `message`. -/
structure JsError where
  name : String
  message : String
deriving DecidableEq, Repr

/-- The JavaScript expression `new Error(msg)`. -/
def mkError (msg : String) : JsError :=
  { name := "Error", message := msg }

/-- The error V8 raises when a property is read from `undefined` or `null`. -/
def typeError (base key : String) : JsError :=
  { name := "TypeError",
    message := "Cannot read properties of " ++ base ++ " (reading \x27" ++ key ++ "\x27)" }

/-- JavaScript truthiness (`if (v)`, `!v`, `v && …`). -/
def JVal.truthy : JVal → Bool
  | .undefined => false
  | .null => false
  | .bool b => b
  | .num q => q != 0
  | .str s => s != ""
  | .arr _ => true
  | .obj _ => true

/-- Whether a value is `null` or `undefined` (the test of `?.`). -/
def JVal.nullish : JVal → Bool
  | .undefined => true
  | .null => true
  | _ => false

/-- Own-property read `v.k` for a name `k` that is not an inherited member
(`results`, `measurements`, `value`, `unit`, `data`, `main`, `temp`, `name`,
`country`, `latitude`, `longitude`, `population`, `city`, `totalScore`,
`wellbeingFactors` are the names the program reads). -/
def JVal.getProp (v : JVal) (k : String) : Except JsError JVal :=
  match v with
  | .undefined => .error (typeError "undefined" k)
  | .null => .error (typeError "null" k)
  | .obj kvs => .ok ((kvs.lookup k).getD .undefined)
  | _ => .ok .undefined

/-- Indexed read `v[i]`. -/
def JVal.getIndex (v : JVal) (i : Nat) : Except JsError JVal :=
  match v with
  | .undefined => .error (typeError "undefined" (toString i))
  | .null => .error (typeError "null" (toString i))
  | .arr xs => .ok (xs.getD i .undefined)
  | .str s =>
    match s.data.get? i with
    | some c => .ok (.str (String.singleton c))
    | none => .ok .undefined
  | .obj kvs => .ok ((kvs.lookup (toString i)).getD .undefined)
  | _ => .ok .undefined

mutual
/-- What `JSON.stringify` followed by `JSON.parse` makes of a value: an object
property whose value is `undefined` is omitted, an `undefined` array item
becomes `null`, everything else is kept. -/
def JVal.wire : JVal → JVal
  | .arr xs => .arr (wireItems xs)
  | .obj kvs => .obj (wireProps kvs)
  | v => v
/-- Serialisation of the items of an array. -/
def wireItems : List JVal → List JVal
  | [] => []
  | .undefined :: xs => .null :: wireItems xs
  | x :: xs => x.wire :: wireItems xs
/-- Serialisation of the properties of an object. -/
def wireProps : List (String × JVal) → List (String × JVal)
  | [] => []
  | (_, .undefined) :: rest => wireProps rest
  | (k, v) :: rest => (k, v.wire) :: wireProps rest
end

mutual
/-- Whether a value is plain JSON: no `undefined` anywhere inside it. -/
def JVal.isJson : JVal → Bool
  | .undefined => false
  | .arr xs => allJson xs
  | .obj kvs => allJsonProps kvs
  | _ => true
/-- Whether all items of an array are plain JSON. -/
def allJson : List JVal → Bool
  | [] => true
  | x :: xs => x.isJson && allJson xs
/-- Whether all property values of an object are plain JSON. -/
def allJsonProps : List (String × JVal) → Bool
  | [] => true
  | (_, v) :: rest => v.isJson && allJsonProps rest
end

/-- The statement `try { body } catch (error) { handler(error) }`. -/
def tryCatch {α : Type} (body : Except JsError α) (handler : JsError → Except JsError α) :
    Except JsError α :=
  match body with
  | .ok a => .ok a
  | .error e => handler e

/-! ## Outbound calls -/

/-- The three external services, as seen through `axios.get`: a rejection
(transport failure or non-2xx status) or the parsed `response.data`.
`aqSettlesFirst` records which of the two concurrent enrichment promises
settles first. -/
structure World where
  geoDb : JVal → Except JsError JVal
  openAq : JVal → JVal → Except JsError JVal
  openWeather : JVal → JVal → Except JsError JVal
  aqSettlesFirst : Bool

/-- An outbound request issued by the server. -/
inductive Call where
  | geoDb (namePrefix : JVal)
  | openAq (lat lon : JVal)
  | openWeather (lat lon : JVal)

/-- The object returned by `getCityDetails`. -/
structure CityDetails where
  city : JVal
  country : JVal
  lat : JVal
  lon : JVal
  population : JVal

/-- The object returned by `getAirQuality`. -/
structure AqReading where
  airQualityRaw : JVal
  unit : JVal

/-- The object returned by `getWeather`. -/
structure WeatherReading where
  temperatureRaw : JVal

/-- The hardcoded reading `{ airQualityRaw: 15.0, unit: 'µg/m³' }`. -/
def defaultAq : AqReading :=
  { airQualityRaw := .num 15, unit := .str "µg/m³" }

/-- Body of `getCityDetails` (server.js 73-84), given the outcome of the GeoDB call. -/
def getCityDetailsOf (resp : Except JsError JVal) : Except JsError CityDetails :=
  tryCatch
    (do
      let data ← resp
      let list ← data.getProp "data"
      let cityData ← list.getIndex 0
      if !cityData.truthy then
        throw (mkError "City not found via GeoDB.")
      let name ← cityData.getProp "name"
      let country ← cityData.getProp "country"
      let latitude ← cityData.getProp "latitude"
      let longitude ← cityData.getProp "longitude"
      let population ← cityData.getProp "population"
      pure { city := name, country := country, lat := latitude, lon := longitude,
             population := population })
    (fun error => throw (mkError ("GeoDB Error: " ++ error.message)))

/-- The expression `results[0]?.measurements[0]`: the optional chain yields
`undefined` for a nullish first result without evaluating the rest. -/
def firstMeasurement (results : JVal) : Except JsError JVal := do
  let first ← results.getIndex 0
  if first.nullish then
    pure .undefined
  else
    let ms ← first.getProp "measurements"
    ms.getIndex 0

/-- Body of `getAirQuality` (server.js 86-100), given the outcome of the OpenAQ call. -/
def getAirQualityOf (resp : Except JsError JVal) : Except JsError AqReading :=
  tryCatch
    (do
      let data ← resp
      let results ← data.getProp "results"
      let result ← firstMeasurement results
      if !result.truthy then
        pure defaultAq
      else
        let value ← result.getProp "value"
        let unit ← result.getProp "unit"
        pure { airQualityRaw := value, unit := unit })
    (fun _ => pure defaultAq)

/-- Body of `getWeather` (server.js 102-110), given the outcome of the weather call. -/
def getWeatherOf (resp : Except JsError JVal) : Except JsError WeatherReading :=
  tryCatch
    (do
      let data ← resp
      let main ← data.getProp "main"
      let temp ← main.getProp "temp"
      pure { temperatureRaw := temp })
    (fun error => throw (mkError ("OpenWeatherMap Error: " ++ error.message)))

/-- Function `getCityDetails(city)`: one GeoDB call, then the body above. -/
def getCityDetails (w : World) (city : JVal) : Except JsError CityDetails × List Call :=
  (getCityDetailsOf (w.geoDb city), [Call.geoDb city])

/-- Function `getAirQuality(lat, lon)`: one OpenAQ call, then the body above. -/
def getAirQuality (w : World) (lat lon : JVal) : Except JsError AqReading × List Call :=
  (getAirQualityOf (w.openAq lat lon), [Call.openAq lat lon])

/-- Function `getWeather(lat, lon)`: one weather call, then the body above. -/
def getWeather (w : World) (lat lon : JVal) : Except JsError WeatherReading × List Call :=
  (getWeatherOf (w.openWeather lat lon), [Call.openWeather lat lon])

/-- The join `Promise.all([a, b])`: both fulfilled gives the pair; otherwise it
rejects with the reason of whichever rejected promise settled first. -/
def promiseAll2 {α β : Type} (aFirst : Bool) (a : Except JsError α) (b : Except JsError β) :
    Except JsError (α × β) :=
  match a, b with
  | .ok x, .ok y => .ok (x, y)
  | .error e, .ok _ => .error e
  | .ok _, .error e => .error e
  | .error e₁, .error e₂ => .error (if aFirst then e₁ else e₂)

/-! ## Documents (models/user.js, models/record.js) -/

/-- A MongoDB `ObjectId`. -/
abbrev ObjectId := Nat

/-- A stored document of `UserSchema`. -/
structure UserDoc where
  _id : ObjectId
  googleId : String
  displayName : String
  email : Option String
  createdAt : Nat
deriving DecidableEq, Repr

/-- The mongoose virtual `user.id`. -/
def UserDoc.id (u : UserDoc) : ObjectId := u._id

/-- A value of `WellbeingFactorsSchema`. -/
structure WellbeingFactors where
  populationDensity : Rat
  airQuality : Rat
  weatherComfort : Rat
deriving DecidableEq, Repr

/-- A stored document of `RecordSchema`; `__v` is the version key mongoose
adds on save. -/
structure RecordDoc where
  _id : ObjectId
  userId : ObjectId
  city : String
  country : String
  totalScore : Rat
  wellbeingFactors : WellbeingFactors
  dateSaved : Nat
  __v : Nat
deriving DecidableEq, Repr

/-- The value of one property of a document. -/
inductive FieldValue where
  | objectId (id : ObjectId)
  | string (s : String)
  | number (q : Rat)
  | factors (f : WellbeingFactors)
  | date (ms : Nat)
deriving DecidableEq, Repr

/-- The properties of a record document, as `toObject` lists them for the
document built by `new Record({ userId, city, country, totalScore,
wellbeingFactors })`: the five supplied paths in the order given, then `_id`,
the defaulted `dateSaved` (record.js 19) and the version key `__v`. -/
def RecordDoc.toObject (r : RecordDoc) : List (String × FieldValue) :=
  [("userId", .objectId r.userId), ("city", .string r.city), ("country", .string r.country),
   ("totalScore", .number r.totalScore), ("wellbeingFactors", .factors r.wellbeingFactors),
   ("_id", .objectId r._id), ("dateSaved", .date r.dateSaved), ("__v", .number r.__v)]

/-- The property names of a record document. -/
def RecordDoc.fieldNames (r : RecordDoc) : List String :=
  r.toObject.map Prod.fst

/-- The document store: the two collections and the next fresh `ObjectId`. -/
structure Db where
  users : List UserDoc
  records : List RecordDoc
  nextId : Nat
deriving DecidableEq, Repr

/-! ## Requests and responses -/

/-- Process environment read by the gate. -/
structure Env where
  CLIENT_API_KEY : Option String
deriving DecidableEq, Repr

/-- The parts of an incoming request the routes read: the `x-app-api-key`
header, `req.user` (set by the session middleware exactly when
`req.isAuthenticated()` holds), `req.query.city` and `req.body` (the parsed
JSON body). -/
structure Request where
  apiKeyHeader : Option String
  user : Option UserDoc
  queryCity : JVal
  body : JVal

/-- What a response carries: a plain object as serialised by `res.json`, the
save acknowledgement `{ message, record }`, or an array of record documents. -/
inductive Body where
  | json (v : JVal)
  | saved (message : String) (record : RecordDoc)
  | records (rs : List RecordDoc)

/-- A response: status code and body. -/
structure Response where
  status : Nat
  body : Body

/-- Call `res.status(code).json(v)` for a plain value `v`: the body is the
serialisation of `v`. -/
def sendJson (code : Nat) (v : JVal) : Response :=
  { status := code, body := .json v.wire }

/-- Call `res.status(code).json({ message })`. -/
def messageResponse (code : Nat) (message : String) : Response :=
  sendJson code (.obj [("message", .str message)])

/-- Call `res.status(code).json({ message, error })`. -/
def errorResponse (code : Nat) (message error : String) : Response :=
  sendJson code (.obj [("message", .str message), ("error", .str error)])

/-- The property names of a response body that is a plain object. -/
def Response.fieldNames (r : Response) : List String :=
  match r.body with
  | .json (.obj kvs) => kvs.map Prod.fst
  | _ => []

/-- The property `k` of a response body that is a plain object. -/
def Response.field (r : Response) (k : String) : JVal :=
  match r.body with
  | .json (.obj kvs) => (kvs.lookup k).getD .undefined
  | _ => .undefined

/-! ## Aggregation route -/

/-- Route `GET /api/calculate-score` (server.js 126-147): the response and the
outbound calls issued, in order. -/
def calculateScore (w : World) (req : Request) : Response × List Call :=
  let city := req.queryCity
  if !city.truthy then
    (messageResponse 400 "City parameter is required.", [])
  else
    let failed (error : JsError) : Response :=
      errorResponse 500 "Failed to fetch city data from external APIs." error.message
    match getCityDetails w city with
    | (.error error, calls) => (failed error, calls)
    | (.ok cityDetails, calls) =>
      let aq := getAirQuality w cityDetails.lat cityDetails.lon
      let weather := getWeather w cityDetails.lat cityDetails.lon
      match promiseAll2 w.aqSettlesFirst aq.1 weather.1 with
      | .error error => (failed error, calls ++ aq.2 ++ weather.2)
      | .ok (aqData, weatherData) =>
        let rawData := JVal.obj [
          ("city", cityDetails.city), ("country", cityDetails.country),
          ("population", cityDetails.population),
          ("airQualityRaw", aqData.airQualityRaw),
          ("temperatureRaw", weatherData.temperatureRaw)]
        (sendJson 200 rawData, calls ++ aq.2 ++ weather.2)

/-! ## Security middleware and gated routes -/

/-- Outcome of a middleware: call `next()` or send a response. -/
inductive Step where
  | next
  | send (res : Response)

/-- Truthiness of a header or environment string (`undefined` when absent). -/
def strTruthy : Option String → Bool
  | some s => s != ""
  | none => false

/-- Middleware `verifyApiKey` (server.js 48-54). -/
def verifyApiKey (env : Env) (req : Request) : Step :=
  let clientKey := req.apiKeyHeader
  if strTruthy clientKey && clientKey == env.CLIENT_API_KEY then
    .next
  else
    .send (messageResponse 401 "Unauthorized: Invalid Application API Key")

/-- Middleware `ensureAuth` (server.js 57-62). -/
def ensureAuth (req : Request) : Step :=
  if req.user.isSome then
    .next
  else
    .send (messageResponse 401 "Unauthorized: User must be logged in to access this resource.")

/-- A route handler acting on the store. -/
abbrev Handler := Request → Db → Response × Db

/-- Express runs the middleware of a route in order; the first that sends a
response ends the request, and the handler runs only after all called `next()`. -/
def route (middleware : List (Request → Step)) (handler : Handler) : Handler :=
  fun req db =>
    match middleware with
    | [] => handler req db
    | m :: rest =>
      match m req with
      | .next => route rest handler req db
      | .send res => (res, db)

/-! ## Store operations

Each operation takes `outage`: when it is `some e` the store rejects the
operation with `e` (connection loss); otherwise the operation runs. -/

/-- Mongoose `required` on a `String` path: present and non-empty (the
validation message is abbreviated). -/
def requiredString (path : String) (v : Option String) : Except JsError String :=
  match v with
  | some s =>
    if s != "" then .ok s
    else .error { name := "ValidationError", message := "Path " ++ path ++ " is required." }
  | none => .error { name := "ValidationError", message := "Path " ++ path ++ " is required." }

/-- Mongoose `required` on a path of another type: present. -/
def requiredValue {α : Type} (path : String) (v : Option α) : Except JsError α :=
  match v with
  | some a => .ok a
  | none => .error { name := "ValidationError", message := "Path " ++ path ++ " is required." }

/-- Mongoose's casts of a raw value to the `String` and `Number` schema types:
library behaviour, taken as a parameter.  A result `none` is a null or
undefined value.  The four laws state what the casts do with values that need
no conversion: a string cast to `String` and a number cast to `Number` are kept,
and a null or undefined value stays so. -/
structure Mongoose where
  castString : JVal → Except JsError (Option String)
  castNumber : JVal → Except JsError (Option Rat)
  castString_str : ∀ s, castString (.str s) = .ok (some s)
  castString_nullish : ∀ v, v.nullish = true → castString v = .ok none
  castNumber_num : ∀ q, castNumber (.num q) = .ok (some q)
  castNumber_nullish : ∀ v, v.nullish = true → castNumber v = .ok none

/-- Cast and validation of the `wellbeingFactors` subdocument (record.js 3-7):
a null or undefined value is no subdocument, an object has its three paths cast
to `Number` and required (other members are dropped), anything else is
rejected. -/
def castFactors (m : Mongoose) (v : JVal) : Except JsError (Option WellbeingFactors) :=
  match v with
  | .undefined => .ok none
  | .null => .ok none
  | .obj kvs => do
    let pd ← m.castNumber ((kvs.lookup "populationDensity").getD .undefined)
    let aq ← m.castNumber ((kvs.lookup "airQuality").getD .undefined)
    let wc ← m.castNumber ((kvs.lookup "weatherComfort").getD .undefined)
    let populationDensity ← requiredValue "wellbeingFactors.populationDensity" pd
    let airQuality ← requiredValue "wellbeingFactors.airQuality" aq
    let weatherComfort ← requiredValue "wellbeingFactors.weatherComfort" wc
    pure (some { populationDensity := populationDensity, airQuality := airQuality,
                 weatherComfort := weatherComfort })
  | _ => .error { name := "ObjectExpectedError",
                  message := "Tried to set nested object field wellbeingFactors to primitive value" }

/-- Expression `new Record({ userId, city, country, totalScore, wellbeingFactors })`
followed by `save()` (record.js 9-20): cast the supplied values to the schema
types, validate the required paths, apply the `dateSaved` default, assign a
fresh `_id`, and append the document. -/
def Record.save (m : Mongoose) (outage : Option JsError) (now : Nat) (userId : ObjectId)
    (city country totalScore wellbeingFactors : JVal) (db : Db) :
    Except JsError (RecordDoc × Db) := do
  let cityCast ← m.castString city
  let countryCast ← m.castString country
  let totalScoreCast ← m.castNumber totalScore
  let factorsCast ← castFactors m wellbeingFactors
  let city ← requiredString "city" cityCast
  let country ← requiredString "country" countryCast
  let totalScore ← requiredValue "totalScore" totalScoreCast
  let wellbeingFactors ← requiredValue "wellbeingFactors" factorsCast
  match outage with
  | some e => throw e
  | none =>
    let doc : RecordDoc :=
      { _id := db.nextId, userId := userId, city := city, country := country,
        totalScore := totalScore, wellbeingFactors := wellbeingFactors,
        dateSaved := now, __v := 0 }
    pure (doc, { db with records := db.records ++ [doc], nextId := db.nextId + 1 })

/-- Query `Record.find({ userId })`: the matching documents. -/
def Record.find (outage : Option JsError) (userId : ObjectId) (db : Db) :
    Except JsError (List RecordDoc) :=
  match outage with
  | some e => .error e
  | none => .ok (db.records.filter (fun r => r.userId == userId))

/-- Cursor modifier `.sort({ totalScore: -1 })`: highest score first. -/
def sortByTotalScoreDesc (rs : List RecordDoc) : List RecordDoc :=
  rs.insertionSort (fun a b => a.totalScore ≥ b.totalScore)

/-- The read `req.user.id`; it throws when `req.user` is undefined. -/
def Request.userId (req : Request) : Except JsError ObjectId :=
  match req.user with
  | some u => .ok u.id
  | none => .error (typeError "undefined" "id")

/-- Handler of `POST /saveData` (server.js 150-160); destructuring `req.body`
throws when it is null or undefined. -/
def saveDataHandler (m : Mongoose) (outage : Option JsError) (now : Nat) : Handler :=
  fun req db =>
    match (do
      let city ← req.body.getProp "city"
      let country ← req.body.getProp "country"
      let totalScore ← req.body.getProp "totalScore"
      let wellbeingFactors ← req.body.getProp "wellbeingFactors"
      let userId ← req.userId
      Record.save m outage now userId city country totalScore wellbeingFactors db) with
    | .ok (newRecord, db2) =>
      ({ status := 201, body := .saved "Record saved successfully" newRecord }, db2)
    | .error error => (errorResponse 500 "Failed to save record" error.message, db)

/-- Handler of `GET /records` (server.js 163-171). -/
def recordsHandler (outage : Option JsError) : Handler :=
  fun req db =>
    match (do
      let userId ← req.userId
      let found ← Record.find outage userId db
      pure (sortByTotalScoreDesc found)) with
    | .ok records => ({ status := 200, body := .records records }, db)
    | .error error => (errorResponse 500 "Failed to retrieve records" error.message, db)

/-- Route `POST /saveData`: `verifyApiKey`, `ensureAuth`, then the handler. -/
def postSaveData (env : Env) (m : Mongoose) (outage : Option JsError) (now : Nat) : Handler :=
  route [verifyApiKey env, ensureAuth] (saveDataHandler m outage now)

/-- Route `GET /records`: `verifyApiKey`, `ensureAuth`, then the handler. -/
def getRecords (env : Env) (outage : Option JsError) : Handler :=
  route [verifyApiKey env, ensureAuth] (recordsHandler outage)

/-! ## Login (config/passport.js) -/

/-- The parts of a Google profile the verify callback reads; `emails` is the
list of `value`s, `none` when the profile has no `emails` member. -/
structure Profile where
  id : String
  displayName : String
  emails : Option (List String)
deriving DecidableEq, Repr

/-- The `email` member of `newUser` (passport.js 19). -/
def newUserEmail (profile : Profile) : String :=
  match profile.emails with
  | some (first :: _) => first
  | _ => "No Email"

/-- Query `User.findOne({ googleId })`. -/
def User.findOne (outage : Option JsError) (googleId : String) (db : Db) :
    Except JsError (Option UserDoc) :=
  match outage with
  | some e => .error e
  | none => .ok (db.users.find? (fun u => u.googleId == googleId))

/-- Call `User.create(newUser)` (user.js 3-20): validate the required paths,
enforce the unique index on `googleId`, apply the `createdAt` default, assign a
fresh `_id`, and append the document. -/
def User.create (outage : Option JsError) (now : Nat) (googleId displayName email : String)
    (db : Db) : Except JsError (UserDoc × Db) := do
  let googleId ← requiredString "googleId" (some googleId)
  let displayName ← requiredString "displayName" (some displayName)
  match outage with
  | some e => throw e
  | none =>
    if db.users.any (fun u => u.googleId == googleId) then
      throw { name := "MongoServerError", message := "E11000 duplicate key error" }
    else
      let doc : UserDoc :=
        { _id := db.nextId, googleId := googleId, displayName := displayName,
          email := some email, createdAt := now }
      pure (doc, { db with users := db.users ++ [doc], nextId := db.nextId + 1 })

/-- The verify callback of the Google strategy (passport.js 15-37): the
argument of `done` (`.ok user` for `done(null, user)`, `.error err` for
`done(err, null)`) and the store afterwards. -/
def verifyCallback (outage : Option JsError) (now : Nat) (profile : Profile) (db : Db) :
    Except JsError UserDoc × Db :=
  match User.findOne outage profile.id db with
  | .error err => (.error err, db)
  | .ok (some user) => (.ok user, db)
  | .ok none =>
    match User.create outage now profile.id profile.displayName (newUserEmail profile) db with
    | .ok (user, db2) => (.ok user, db2)
    | .error err => (.error err, db)

/-- A sequence of logins, one after the other; each carries its own store
availability, clock and profile. -/
def loginAll (logins : List (Option JsError × Nat × Profile)) (db : Db) : Db :=
  logins.foldl (fun d l => (verifyCallback l.1 l.2.1 l.2.2 d).2) db

/-- No two stored users share a `googleId`. -/
def UniqueGoogleIds (db : Db) : Prop :=
  (db.users.map (fun u => u.googleId)).Nodup

instance (db : Db) : Decidable (UniqueGoogleIds db) :=
  inferInstanceAs (Decidable (db.users.map (fun u : UserDoc => u.googleId)).Nodup)

/-! ## Example inputs -/

/-- A GeoDB body with one match. -/
def parisGeoBody : JVal :=
  .obj [("data", .arr [.obj [
    ("name", .str "Paris"), ("country", .str "France"),
    ("latitude", .num 48), ("longitude", .num 2), ("population", .num 2138551)]])]

/-- A world in which GeoDB and the weather service answer and OpenAQ is unreachable. -/
def parisWorld : World :=
  { geoDb := fun _ => .ok parisGeoBody
    openAq := fun _ _ => .error { name := "AxiosError", message := "Network Error" }
    openWeather := fun _ _ => .ok (.obj [("main", .obj [("temp", .num 293)])])
    aqSettlesFirst := true }

/-- A stored user. -/
def alice : UserDoc :=
  { _id := 1, googleId := "g-alice", displayName := "Alice", email := some "alice@example.org",
    createdAt := 0 }

/-- A second stored user. -/
def bob : UserDoc :=
  { _id := 2, googleId := "g-bob", displayName := "Bob", email := some "bob@example.org",
    createdAt := 0 }

/-- The request body of the round-trip example. -/
def parisBody : JVal :=
  .obj [("city", .str "Paris"), ("country", .str "France"), ("totalScore", .num 77),
    ("wellbeingFactors", .obj [("populationDensity", .num 5), ("airQuality", .num 8),
      ("weatherComfort", .num 9)])]

/-- The same body with the score sent as the string "77". -/
def parisBodyStringScore : JVal :=
  .obj [("city", .str "Paris"), ("country", .str "France"), ("totalScore", .str "77"),
    ("wellbeingFactors", .obj [("populationDensity", .num 5), ("airQuality", .num 8),
      ("weatherComfort", .num 9)])]

/-- The number spelled by a list of decimal digits, `none` when a character is
not a digit. -/
def decimalValue : List Char → Nat → Option Nat
  | [], acc => some acc
  | c :: cs, acc =>
    if c.isDigit then decimalValue cs (acc * 10 + (c.toNat - 48)) else none

/-- A caster that agrees with mongoose on the values of the examples: strings
cast to `String` and numbers cast to `Number` are kept, null and undefined stay
so, the empty string cast to `Number` is null, and a string of decimal digits
cast to `Number` is the number it spells.  Every other value is rejected by this
example caster. -/
def exampleCasts : Mongoose :=
  { castString := fun v =>
      match v with
      | .str s => .ok (some s)
      | .undefined => .ok none
      | .null => .ok none
      | _ => .error { name := "CastError", message := "Cast to String failed" }
    castNumber := fun v =>
      match v with
      | .num q => .ok (some q)
      | .undefined => .ok none
      | .null => .ok none
      | .str s =>
        if s = "" then .ok none
        else
          match decimalValue s.data 0 with
          | some n => .ok (some n)
          | none => .error { name := "CastError", message := "Cast to Number failed" }
      | _ => .error { name := "CastError", message := "Cast to Number failed" }
    castString_str := fun _ => rfl
    castString_nullish := fun v h => by cases v <;> simp [JVal.nullish] at h ⊢
    castNumber_num := fun _ => rfl
    castNumber_nullish := fun v h => by cases v <;> simp [JVal.nullish] at h ⊢ }

/-- A GeoDB body whose only match carries no population. -/
def noPopulationGeoBody : JVal :=
  .obj [("data", .arr [.obj [
    ("name", .str "Paris"), ("country", .str "France"),
    ("latitude", .num 48), ("longitude", .num 2)]])]

/-- A request with the given key header and session user. -/
def mkRequest (key : Option String) (user : Option UserDoc) : Request :=
  { apiKeyHeader := key, user := user, queryCity := .str "Paris", body := parisBody }

/-- A stored record of the given owner and score. -/
def scoreRecord (id owner : ObjectId) (score : Rat) : RecordDoc :=
  { _id := id, userId := owner, city := "Paris", country := "France", totalScore := score,
    wellbeingFactors := { populationDensity := 5, airQuality := 8, weatherComfort := 9 },
    dateSaved := 0, __v := 0 }

/-- A store with three records of `alice` (scores 40, 90, 65) and one of `bob`. -/
def sampleDb : Db :=
  { users := [alice, bob],
    records := [scoreRecord 3 1 40, scoreRecord 4 2 99, scoreRecord 5 1 90, scoreRecord 6 1 65],
    nextId := 7 }

/-! ## Helper lemmas -/

theorem wireProps_cons_defined (k : String) (v : JVal) (rest : List (String × JVal))
    (h : v ≠ .undefined) : wireProps ((k, v) :: rest) = (k, v.wire) :: wireProps rest := by
  cases v <;> simp [wireProps] at h ⊢

theorem wireProps_cons_undefined (k : String) (rest : List (String × JVal)) :
    wireProps ((k, .undefined) :: rest) = wireProps rest := by
  simp [wireProps]

theorem wire_ne_undefined (v : JVal) (h : v ≠ .undefined) : v.wire ≠ .undefined := by
  cases v <;> simp [JVal.wire] at h ⊢

theorem mem_keys_wireProps (kvs : List (String × JVal)) (k : String) :
    k ∈ (wireProps kvs).map Prod.fst ↔ ∃ v, (k, v) ∈ kvs ∧ v ≠ .undefined := by
  induction kvs with
  | nil => simp [wireProps]
  | cons p rest ih =>
    obtain ⟨k2, v2⟩ := p
    by_cases hv : v2 = .undefined
    · subst hv
      rw [wireProps_cons_undefined, ih]
      constructor
      · rintro ⟨v, hm, hne⟩
        exact ⟨v, List.mem_cons_of_mem _ hm, hne⟩
      · rintro ⟨v, hm, hne⟩
        rcases List.mem_cons.mp hm with heq | hm
        · cases heq
          exact absurd rfl hne
        · exact ⟨v, hm, hne⟩
    · rw [wireProps_cons_defined k2 v2 rest hv, List.map_cons, List.mem_cons, ih]
      constructor
      · rintro (rfl | ⟨v, hm, hne⟩)
        · exact ⟨v2, List.mem_cons_self _ _, hv⟩
        · exact ⟨v, List.mem_cons_of_mem _ hm, hne⟩
      · rintro ⟨v, hm, hne⟩
        rcases List.mem_cons.mp hm with heq | hm
        · cases heq
          exact Or.inl rfl
        · exact Or.inr ⟨v, hm, hne⟩

theorem lookup_wireProps (kvs : List (String × JVal)) (k : String) (v : JVal)
    (hnd : (kvs.map Prod.fst).Nodup) (hm : (k, v) ∈ kvs) (hv : v ≠ .undefined) :
    (wireProps kvs).lookup k = some v.wire := by
  induction kvs with
  | nil => cases hm
  | cons p rest ih =>
    obtain ⟨k2, v2⟩ := p
    simp only [List.map_cons, List.nodup_cons] at hnd
    rcases List.mem_cons.mp hm with heq | hm2
    · cases heq
      rw [wireProps_cons_defined k v rest hv]
      simp [List.lookup]
    · have hne : k ≠ k2 := by
        intro h
        subst h
        exact hnd.1 (List.mem_map_of_mem Prod.fst hm2)
      by_cases hv2 : v2 = .undefined
      · subst hv2
        rw [wireProps_cons_undefined]
        exact ih hnd.2 hm2
      · rw [wireProps_cons_defined k2 v2 rest hv2]
        have hb : (k == k2) = false := by simp [hne]
        simp only [List.lookup, hb]
        exact ih hnd.2 hm2

mutual
theorem wire_of_isJson : ∀ (v : JVal), v.isJson = true → v.wire = v
  | .undefined, h => by simp [JVal.isJson] at h
  | .null, _ => rfl
  | .bool _, _ => rfl
  | .num _, _ => rfl
  | .str _, _ => rfl
  | .arr xs, h => by
    have := wireItems_of_allJson xs (by simpa [JVal.isJson] using h)
    simp [JVal.wire, this]
  | .obj kvs, h => by
    have := wireProps_of_allJson kvs (by simpa [JVal.isJson] using h)
    simp [JVal.wire, this]
theorem wireItems_of_allJson : ∀ (xs : List JVal), allJson xs = true → wireItems xs = xs
  | [], _ => rfl
  | x :: xs, h => by
    simp only [allJson, Bool.and_eq_true] at h
    have h1 := wire_of_isJson x h.1
    have h2 := wireItems_of_allJson xs h.2
    cases x <;> simp_all [wireItems, JVal.isJson]
theorem wireProps_of_allJson : ∀ (kvs : List (String × JVal)), allJsonProps kvs = true →
    wireProps kvs = kvs
  | [], _ => rfl
  | (k, v) :: rest, h => by
    simp only [allJsonProps, Bool.and_eq_true] at h
    have h1 := wire_of_isJson v h.1
    have h2 := wireProps_of_allJson rest h.2
    cases v <;> simp_all [wireProps, JVal.isJson]
end

theorem verifyApiKey_next_iff (env : Env) (req : Request) :
    verifyApiKey env req = Step.next ↔
      ∃ k, k ≠ "" ∧ req.apiKeyHeader = some k ∧ env.CLIENT_API_KEY = some k := by
  have key : (strTruthy req.apiKeyHeader && req.apiKeyHeader == env.CLIENT_API_KEY) = true ↔
      ∃ k, k ≠ "" ∧ req.apiKeyHeader = some k ∧ env.CLIENT_API_KEY = some k := by
    cases req.apiKeyHeader with
    | none => simp [strTruthy]
    | some k =>
      simp only [strTruthy, Bool.and_eq_true, bne_iff_ne, ne_eq, beq_iff_eq]
      constructor
      · rintro ⟨h1, h2⟩
        exact ⟨k, h1, rfl, h2.symm⟩
      · rintro ⟨x, h1, h2, h3⟩
        cases h2
        exact ⟨h1, h3.symm⟩
  by_cases hc : (strTruthy req.apiKeyHeader && req.apiKeyHeader == env.CLIENT_API_KEY) = true
  · have hn : verifyApiKey env req = Step.next := by simp [verifyApiKey, hc]
    exact ⟨fun _ => key.mp hc, fun _ => hn⟩
  · have hs : verifyApiKey env req =
        Step.send (messageResponse 401 "Unauthorized: Invalid Application API Key") := by
      simp [verifyApiKey, hc]
    constructor
    · intro h
      rw [hs] at h
      cases h
    · intro h
      exact absurd (key.mpr h) hc

theorem route_gate (env : Env) (h : Handler) (req : Request) (db : Db) :
    (verifyApiKey env req ≠ Step.next →
      route [verifyApiKey env, ensureAuth] h req db =
        (messageResponse 401 "Unauthorized: Invalid Application API Key", db)) ∧
    (verifyApiKey env req = Step.next → req.user = none →
      route [verifyApiKey env, ensureAuth] h req db =
        (messageResponse 401 "Unauthorized: User must be logged in to access this resource.",
          db)) ∧
    (verifyApiKey env req = Step.next → req.user ≠ none →
      route [verifyApiKey env, ensureAuth] h req db = h req db) := by
  refine ⟨?_, ?_, ?_⟩
  · intro hne
    have hs : verifyApiKey env req =
        Step.send (messageResponse 401 "Unauthorized: Invalid Application API Key") := by
      by_cases hc : (strTruthy req.apiKeyHeader && req.apiKeyHeader == env.CLIENT_API_KEY) = true
      · exact absurd (by simp [verifyApiKey, hc]) hne
      · simp [verifyApiKey, hc]
    simp [route, hs]
  · intro hk hu
    simp [route, hk, ensureAuth, hu]
  · intro hk hu
    cases hu2 : req.user with
    | none => exact absurd hu2 hu
    | some u => simp [route, hk, ensureAuth, hu2]

theorem getProp_of_truthy (m : JVal) (k : String) (h : m.truthy = true) :
    ∃ v, m.getProp k = .ok v := by
  cases m <;> simp [JVal.truthy, JVal.getProp] at h ⊢

theorem getAirQualityOf_total (resp : Except JsError JVal) :
    ∃ r, getAirQualityOf resp = .ok r := by
  unfold getAirQualityOf tryCatch
  split
  · exact ⟨_, rfl⟩
  · exact ⟨defaultAq, rfl⟩

theorem getCityDetailsOf_ok (resp : Except JsError JVal) (cd : CityDetails)
    (h : getCityDetailsOf resp = .ok cd) :
    ∃ data list first, resp = .ok data ∧ data.getProp "data" = .ok list ∧
      list.getIndex 0 = .ok first ∧ first.truthy = true ∧
      first.getProp "name" = .ok cd.city ∧ first.getProp "country" = .ok cd.country ∧
      first.getProp "latitude" = .ok cd.lat ∧ first.getProp "longitude" = .ok cd.lon ∧
      first.getProp "population" = .ok cd.population := by
  unfold getCityDetailsOf tryCatch at h
  cases resp with
  | error e => simp [bind, Except.bind, throw, throwThe, MonadExceptOf.throw] at h
  | ok data =>
    cases hl : data.getProp "data" with
    | error e => simp [hl, bind, Except.bind, throw, throwThe, MonadExceptOf.throw] at h
    | ok list =>
      cases hf : list.getIndex 0 with
      | error e => simp [hl, hf, bind, Except.bind, throw, throwThe, MonadExceptOf.throw] at h
      | ok first =>
        cases ht : first.truthy with
        | false =>
          simp [hl, hf, ht, bind, Except.bind, throw, throwThe, MonadExceptOf.throw] at h
        | true =>
          obtain ⟨v1, h1⟩ := getProp_of_truthy first "name" ht
          obtain ⟨v2, h2⟩ := getProp_of_truthy first "country" ht
          obtain ⟨v3, h3⟩ := getProp_of_truthy first "latitude" ht
          obtain ⟨v4, h4⟩ := getProp_of_truthy first "longitude" ht
          obtain ⟨v5, h5⟩ := getProp_of_truthy first "population" ht
          simp [hl, hf, ht, h1, h2, h3, h4, h5, bind, Except.bind, pure, Except.pure] at h
          subst h
          exact ⟨data, list, first, rfl, hl, hf, ht, h1, h2, h3, h4, h5⟩

theorem getWeatherOf_error (e : JsError) :
    getWeatherOf (.error e) = .error (mkError ("OpenWeatherMap Error: " ++ e.message)) := by
  simp [getWeatherOf, tryCatch, bind, Except.bind, throw, throwThe, MonadExceptOf.throw]

theorem calculateScore_geo_ok (w : World) (req : Request) (cd : CityDetails)
    (hcity : req.queryCity.truthy = true)
    (hgeo : (getCityDetails w req.queryCity).1 = .ok cd) :
    calculateScore w req =
      match promiseAll2 w.aqSettlesFirst (getAirQuality w cd.lat cd.lon).1
          (getWeather w cd.lat cd.lon).1 with
      | .error error =>
        (errorResponse 500 "Failed to fetch city data from external APIs." error.message,
          [Call.geoDb req.queryCity, Call.openAq cd.lat cd.lon, Call.openWeather cd.lat cd.lon])
      | .ok (aqData, weatherData) =>
        (sendJson 200 (.obj [
            ("city", cd.city), ("country", cd.country), ("population", cd.population),
            ("airQualityRaw", aqData.airQualityRaw),
            ("temperatureRaw", weatherData.temperatureRaw)]),
          [Call.geoDb req.queryCity, Call.openAq cd.lat cd.lon, Call.openWeather cd.lat cd.lon]) := by
  simp only [getCityDetails] at hgeo
  simp only [calculateScore, hcity, getCityDetails, hgeo]
  cases promiseAll2 w.aqSettlesFirst (getAirQuality w cd.lat cd.lon).1
      (getWeather w cd.lat cd.lon).1 with
  | error e => simp [getAirQuality, getWeather]
  | ok p => simp [getAirQuality, getWeather]

theorem getAirQualityOf_noMeasurement (resp : Except JsError JVal)
    (h : (∃ e, resp = .error e) ∨
      (∃ data, resp = .ok data ∧
        (data.getProp "results" = .ok (.arr []) ∨ data.getProp "results" = .ok .undefined)) ∨
      (∃ data first rest, resp = .ok data ∧
        data.getProp "results" = .ok (.arr (first :: rest)) ∧
        (first.getProp "measurements" = .ok (.arr []) ∨
          first.getProp "measurements" = .ok .undefined))) :
    getAirQualityOf resp = .ok defaultAq := by
  rcases h with ⟨e, rfl⟩ | ⟨data, rfl, hres⟩ | ⟨data, first, rest, rfl, hres, hms⟩
  · simp [getAirQualityOf, tryCatch, bind, Except.bind, pure, Except.pure]
  · rcases hres with h | h <;>
      simp [getAirQualityOf, tryCatch, firstMeasurement, h, bind, Except.bind,
        pure, Except.pure, JVal.getIndex, JVal.nullish, JVal.truthy]
  · have hnn : first.nullish = false := by
      cases first <;> simp [JVal.getProp, JVal.nullish] at hms ⊢
    rcases hms with h | h <;>
      simp [getAirQualityOf, tryCatch, firstMeasurement, hres, h, hnn, bind,
        Except.bind, pure, Except.pure, JVal.getIndex, JVal.truthy]

theorem geoDb_message_eq_iff (m : String) :
    "GeoDB Error: " ++ m = "GeoDB Error: City not found via GeoDB." ↔
      m = "City not found via GeoDB." := by
  constructor
  · intro h
    have h2 : ("GeoDB Error: " ++ m).data =
        ("GeoDB Error: " ++ "City not found via GeoDB.").data := by
      rw [h]
      rfl
    rw [String.data_append, String.data_append] at h2
    exact String.ext (List.append_cancel_left h2)
  · intro h
    subst h
    rfl

theorem getRecords_passed (env : Env) (req : Request) (db : Db) (u : UserDoc)
    (hkey : verifyApiKey env req = Step.next) (huser : req.user = some u) :
    getRecords env none req db =
      ({ status := 200,
         body := .records (sortByTotalScoreDesc (db.records.filter (fun r => r.userId == u.id))) },
        db) := by
  have hu : req.user ≠ none := by simp [huser]
  have h := (route_gate env (recordsHandler none) req db).2.2 hkey hu
  unfold getRecords
  rw [h]
  simp [recordsHandler, Request.userId, huser, Record.find, bind, Except.bind, pure, Except.pure]

theorem sortByTotalScoreDesc_perm (rs : List RecordDoc) :
    List.Perm (sortByTotalScoreDesc rs) rs :=
  List.perm_insertionSort _ rs

theorem sortByTotalScoreDesc_sorted (rs : List RecordDoc) :
    List.Sorted (fun a b => a.totalScore ≥ b.totalScore) (sortByTotalScoreDesc rs) := by
  haveI : IsTotal RecordDoc (fun a b => a.totalScore ≥ b.totalScore) :=
    ⟨fun a b => le_total b.totalScore a.totalScore⟩
  haveI : IsTrans RecordDoc (fun a b => a.totalScore ≥ b.totalScore) :=
    ⟨fun _ _ _ hab hbc => le_trans hbc hab⟩
  exact List.sorted_insertionSort _ rs

theorem requiredString_ok (path : String) (v : Option String) (s : String)
    (h : requiredString path v = .ok s) : v = some s ∧ s ≠ "" := by
  cases v with
  | none => simp [requiredString] at h
  | some t =>
    by_cases ht : t = ""
    · simp [requiredString, ht] at h
    · simp [requiredString, ht] at h
      subst h
      exact ⟨rfl, ht⟩

theorem castFactors_ok (m : Mongoose) (v : JVal) (wf : WellbeingFactors)
    (h : castFactors m v = .ok (some wf)) :
    ∃ kvs, v = .obj kvs ∧
      m.castNumber ((kvs.lookup "populationDensity").getD .undefined) =
        .ok (some wf.populationDensity) ∧
      m.castNumber ((kvs.lookup "airQuality").getD .undefined) = .ok (some wf.airQuality) ∧
      m.castNumber ((kvs.lookup "weatherComfort").getD .undefined) =
        .ok (some wf.weatherComfort) := by
  cases v with
  | obj kvs =>
    refine ⟨kvs, rfl, ?_⟩
    simp only [castFactors] at h
    cases h1 : m.castNumber ((kvs.lookup "populationDensity").getD .undefined) with
    | error e => simp [h1, bind, Except.bind] at h
    | ok pd =>
      cases h2 : m.castNumber ((kvs.lookup "airQuality").getD .undefined) with
      | error e => simp [h1, h2, bind, Except.bind] at h
      | ok aq =>
        cases h3 : m.castNumber ((kvs.lookup "weatherComfort").getD .undefined) with
        | error e => simp [h1, h2, h3, bind, Except.bind] at h
        | ok wc =>
          cases pd <;> cases aq <;> cases wc <;>
            simp [h1, h2, h3, requiredValue, bind, Except.bind, pure, Except.pure] at h
          subst h
          exact ⟨rfl, rfl, rfl⟩
  | undefined => simp [castFactors] at h
  | null => simp [castFactors] at h
  | bool _ => simp [castFactors] at h
  | num _ => simp [castFactors] at h
  | str _ => simp [castFactors] at h
  | arr _ => simp [castFactors] at h

theorem castFactors_numbers (m : Mongoose) (kvs : List (String × JVal)) (pd aq wc : Rat)
    (h1 : kvs.lookup "populationDensity" = some (.num pd))
    (h2 : kvs.lookup "airQuality" = some (.num aq))
    (h3 : kvs.lookup "weatherComfort" = some (.num wc)) :
    castFactors m (.obj kvs) =
      .ok (some { populationDensity := pd, airQuality := aq, weatherComfort := wc }) := by
  simp [castFactors, h1, h2, h3, m.castNumber_num, requiredValue, bind, Except.bind, pure,
    Except.pure]

theorem Record.save_ok (m : Mongoose) (outage : Option JsError) (now : Nat) (userId : ObjectId)
    (city country totalScore factors : JVal) (db : Db) (doc : RecordDoc) (db2 : Db)
    (h : Record.save m outage now userId city country totalScore factors db = .ok (doc, db2)) :
    outage = none ∧
    m.castString city = .ok (some doc.city) ∧
    m.castString country = .ok (some doc.country) ∧
    m.castNumber totalScore = .ok (some doc.totalScore) ∧
    castFactors m factors = .ok (some doc.wellbeingFactors) ∧
    doc.city ≠ "" ∧ doc.country ≠ "" ∧
    doc.userId = userId ∧ doc._id = db.nextId ∧ doc.dateSaved = now ∧
    db2 = { db with records := db.records ++ [doc], nextId := db.nextId + 1 } := by
  unfold Record.save at h
  cases h1 : m.castString city with
  | error e => simp [h1, bind, Except.bind] at h
  | ok c =>
    cases h2 : m.castString country with
    | error e => simp [h1, h2, bind, Except.bind] at h
    | ok k =>
      cases h3 : m.castNumber totalScore with
      | error e => simp [h1, h2, h3, bind, Except.bind] at h
      | ok t =>
        cases h4 : castFactors m factors with
        | error e => simp [h1, h2, h3, h4, bind, Except.bind] at h
        | ok f =>
          cases hc : requiredString "city" c with
          | error e => simp [h1, h2, h3, h4, hc, bind, Except.bind] at h
          | ok c2 =>
            cases hk : requiredString "country" k with
            | error e => simp [h1, h2, h3, h4, hc, hk, bind, Except.bind] at h
            | ok k2 =>
              cases t with
              | none => simp [h1, h2, h3, h4, hc, hk, requiredValue, bind, Except.bind] at h
              | some t2 =>
                cases f with
                | none =>
                  simp [h1, h2, h3, h4, hc, hk, requiredValue, bind, Except.bind] at h
                | some f2 =>
                  cases outage with
                  | some e =>
                    simp [h1, h2, h3, h4, hc, hk, requiredValue, bind, Except.bind, throw,
                      throwThe, MonadExceptOf.throw] at h
                  | none =>
                    simp [h1, h2, h3, h4, hc, hk, requiredValue, bind, Except.bind, pure,
                      Except.pure] at h
                    obtain ⟨hdoc, hdb⟩ := h
                    obtain ⟨hc1, hc2⟩ := requiredString_ok _ _ _ hc
                    obtain ⟨hk1, hk2⟩ := requiredString_ok _ _ _ hk
                    subst hdoc
                    subst hc1
                    subst hk1
                    exact ⟨rfl, rfl, rfl, rfl, rfl, hc2, hk2, rfl, rfl, rfl, hdb.symm⟩

theorem Record.save_typed (m : Mongoose) (now : Nat) (userId : ObjectId) (db : Db)
    (city country : String) (score pd aq wc : Rat) (kvs : List (String × JVal))
    (hcity : city ≠ "") (hcountry : country ≠ "")
    (h1 : kvs.lookup "populationDensity" = some (.num pd))
    (h2 : kvs.lookup "airQuality" = some (.num aq))
    (h3 : kvs.lookup "weatherComfort" = some (.num wc)) :
    ∃ doc : RecordDoc,
      doc = { _id := db.nextId, userId := userId, city := city, country := country,
              totalScore := score,
              wellbeingFactors :=
                { populationDensity := pd, airQuality := aq, weatherComfort := wc },
              dateSaved := now, __v := 0 } ∧
      Record.save m none now userId (.str city) (.str country) (.num score) (.obj kvs) db =
        .ok (doc, { db with records := db.records ++ [doc], nextId := db.nextId + 1 }) := by
  refine ⟨_, rfl, ?_⟩
  simp [Record.save, m.castString_str, m.castNumber_num, castFactors_numbers m kvs pd aq wc h1 h2 h3,
    requiredString, requiredValue, hcity, hcountry, bind, Except.bind, pure, Except.pure]

theorem postSaveData_passed (env : Env) (m : Mongoose) (outage : Option JsError) (now : Nat)
    (req : Request) (db : Db) (u : UserDoc) (city country totalScore factors : JVal)
    (hkey : verifyApiKey env req = Step.next) (huser : req.user = some u)
    (h1 : req.body.getProp "city" = .ok city)
    (h2 : req.body.getProp "country" = .ok country)
    (h3 : req.body.getProp "totalScore" = .ok totalScore)
    (h4 : req.body.getProp "wellbeingFactors" = .ok factors) :
    postSaveData env m outage now req db =
      match Record.save m outage now u.id city country totalScore factors db with
      | .ok (newRecord, db2) =>
        ({ status := 201, body := .saved "Record saved successfully" newRecord }, db2)
      | .error error => (errorResponse 500 "Failed to save record" error.message, db) := by
  have hu : req.user ≠ none := by simp [huser]
  have h := (route_gate env (saveDataHandler m outage now) req db).2.2 hkey hu
  unfold postSaveData
  rw [h]
  simp [saveDataHandler, Request.userId, huser, h1, h2, h3, h4, bind, Except.bind]

theorem postSaveData_created (env : Env) (m : Mongoose) (outage : Option JsError) (now : Nat)
    (req : Request) (db : Db) (u : UserDoc) (msg : String) (doc : RecordDoc) (db2 : Db)
    (hkey : verifyApiKey env req = Step.next) (huser : req.user = some u)
    (h : postSaveData env m outage now req db =
      ({ status := 201, body := .saved msg doc }, db2)) :
    ∃ city country totalScore factors,
      req.body.getProp "city" = .ok city ∧ req.body.getProp "country" = .ok country ∧
      req.body.getProp "totalScore" = .ok totalScore ∧
      req.body.getProp "wellbeingFactors" = .ok factors ∧
      Record.save m outage now u.id city country totalScore factors db = .ok (doc, db2) := by
  have hu : req.user ≠ none := by simp [huser]
  have hr := (route_gate env (saveDataHandler m outage now) req db).2.2 hkey hu
  unfold postSaveData at h
  rw [hr] at h
  cases h1 : req.body.getProp "city" with
  | error e =>
    simp [saveDataHandler, h1, bind, Except.bind, errorResponse, sendJson] at h
  | ok city =>
    have hk : ∀ k, ∃ v, req.body.getProp k = .ok v := by
      intro k
      cases hbody : req.body <;> simp [hbody, JVal.getProp] at h1 ⊢
    obtain ⟨country, h2⟩ := hk "country"
    obtain ⟨totalScore, h3⟩ := hk "totalScore"
    obtain ⟨factors, h4⟩ := hk "wellbeingFactors"
    refine ⟨city, country, totalScore, factors, rfl, h2, h3, h4, ?_⟩
    simp only [saveDataHandler, Request.userId, huser, h1, h2, h3, h4, bind, Except.bind] at h
    cases hs : Record.save m outage now u.id city country totalScore factors db with
    | error e =>
      simp [UserDoc.id] at hs
      simp [UserDoc.id, hs, errorResponse, sendJson] at h
    | ok p =>
      obtain ⟨d, d2⟩ := p
      simp [UserDoc.id] at hs
      simp [UserDoc.id, hs] at h
      obtain ⟨⟨_, hd⟩, hd2⟩ := h
      subst hd
      subst hd2
      rfl

theorem find_googleId_of_unique (users : List UserDoc) (k : String) (u : UserDoc)
    (hnd : (users.map (fun v => v.googleId)).Nodup) (hu : u ∈ users) (hk : u.googleId = k) :
    users.find? (fun v => v.googleId == k) = some u := by
  induction users with
  | nil => cases hu
  | cons a rest ih =>
    simp only [List.map_cons, List.nodup_cons] at hnd
    rcases List.mem_cons.mp hu with rfl | hin
    · simp [List.find?, hk]
    · have hne : a.googleId ≠ k := by
        intro h
        apply hnd.1
        rw [h, ← hk]
        exact List.mem_map_of_mem _ hin
      have hb : (a.googleId == k) = false := by simp [hne]
      rw [List.find?_cons, hb]
      exact ih hnd.2 hin

theorem find_googleId_none (users : List UserDoc) (k : String) :
    users.find? (fun v => v.googleId == k) = none ↔ ∀ u ∈ users, u.googleId ≠ k := by
  simp [List.find?_eq_none]

theorem User.create_ok (outage : Option JsError) (now : Nat) (googleId displayName email : String)
    (db : Db) (user : UserDoc) (db2 : Db)
    (h : User.create outage now googleId displayName email db = .ok (user, db2)) :
    user = { _id := db.nextId, googleId := googleId, displayName := displayName,
             email := some email, createdAt := now } ∧
    db2 = { db with users := db.users ++ [user], nextId := db.nextId + 1 } ∧
    (∀ u ∈ db.users, u.googleId ≠ googleId) ∧ googleId ≠ "" ∧ displayName ≠ "" ∧
    outage = none := by
  unfold User.create at h
  by_cases hg : googleId = ""
  · simp [requiredString, hg, bind, Except.bind] at h
  · by_cases hd : displayName = ""
    · simp [requiredString, hg, hd, bind, Except.bind] at h
    · cases outage with
      | some e =>
        simp [requiredString, hg, hd, bind, Except.bind, throw, throwThe,
          MonadExceptOf.throw] at h
      | none =>
        have hg2 : (googleId != "") = true := by simp [hg]
        have hd2 : (displayName != "") = true := by simp [hd]
        simp only [requiredString, hg2, hd2, if_true, bind, Except.bind] at h
        cases hany : db.users.any (fun u => u.googleId == googleId) with
        | true =>
          rw [hany] at h
          simp [throw, throwThe, MonadExceptOf.throw] at h
        | false =>
          rw [hany] at h
          simp only [Bool.false_eq_true, if_false, pure, Except.pure, Except.ok.injEq,
            Prod.mk.injEq] at h
          have hall : ∀ u ∈ db.users, u.googleId ≠ googleId := by
            intro u hu he
            have : db.users.any (fun u => u.googleId == googleId) = true :=
              List.any_eq_true.mpr ⟨u, hu, by simp [he]⟩
            rw [hany] at this
            cases this
          obtain ⟨hu, hdb⟩ := h
          subst hu
          exact ⟨rfl, hdb.symm, hall, hg, hd, rfl⟩

theorem User.create_fresh (now : Nat) (googleId displayName email : String) (db : Db)
    (hnew : ∀ u ∈ db.users, u.googleId ≠ googleId) (hg : googleId ≠ "")
    (hd : displayName ≠ "") :
    ∃ user : UserDoc,
      user = { _id := db.nextId, googleId := googleId, displayName := displayName,
               email := some email, createdAt := now } ∧
      User.create none now googleId displayName email db =
        .ok (user, { db with users := db.users ++ [user], nextId := db.nextId + 1 }) := by
  refine ⟨_, rfl, ?_⟩
  have hg2 : (googleId != "") = true := by simp [hg]
  have hd2 : (displayName != "") = true := by simp [hd]
  have hany : db.users.any (fun u => u.googleId == googleId) = false := by
    cases hany : db.users.any (fun u => u.googleId == googleId) with
    | false => rfl
    | true =>
      obtain ⟨x, hx, hxe⟩ := List.any_eq_true.mp hany
      exact absurd (by simpa using hxe) (hnew x hx)
  simp only [User.create, requiredString, hg2, hd2, if_true, bind, Except.bind, hany,
    Bool.false_eq_true, if_false, pure, Except.pure]

theorem verifyCallback_found (now : Nat) (profile : Profile) (db : Db) (u : UserDoc)
    (h : db.users.find? (fun v => v.googleId == profile.id) = some u) :
    verifyCallback none now profile db = (.ok u, db) := by
  simp [verifyCallback, User.findOne, h]

theorem verifyCallback_unique (outage : Option JsError) (now : Nat) (profile : Profile)
    (db : Db) (h : UniqueGoogleIds db) :
    UniqueGoogleIds (verifyCallback outage now profile db).2 := by
  unfold verifyCallback
  cases hf : User.findOne outage profile.id db with
  | error e => exact h
  | ok found =>
    cases found with
    | some u => exact h
    | none =>
      cases hc : User.create outage now profile.id profile.displayName (newUserEmail profile)
          db with
      | error e => exact h
      | ok p =>
        obtain ⟨user, db2⟩ := p
        obtain ⟨hu, hdb, hnew, _, _, _⟩ := User.create_ok _ _ _ _ _ _ _ _ hc
        show UniqueGoogleIds db2
        unfold UniqueGoogleIds at h ⊢
        rw [hdb]
        simp only [List.map_append, List.map_cons, List.map_nil]
        rw [List.nodup_append]
        refine ⟨h, List.nodup_singleton _, ?_⟩
        intro a ha hb
        rw [List.mem_singleton] at hb
        obtain ⟨v, hv, hve⟩ := List.mem_map.mp ha
        apply hnew v hv
        rw [hve, hb, hu]

theorem loginAll_unique (logins : List (Option JsError × Nat × Profile)) (db : Db)
    (h : UniqueGoogleIds db) : UniqueGoogleIds (loginAll logins db) := by
  induction logins generalizing db with
  | nil => exact h
  | cons l rest ih =>
    simp only [loginAll, List.foldl_cons]
    exact ih _ (verifyCallback_unique l.1 l.2.1 l.2.2 db h)

theorem verifyCallback_again (now now2 : Nat) (profile : Profile) (db db2 : Db) (user : UserDoc)
    (h : verifyCallback none now profile db = (.ok user, db2)) :
    verifyCallback none now2 profile db2 = (.ok user, db2) := by
  cases hf : db.users.find? (fun v => v.googleId == profile.id) with
  | some u =>
    rw [verifyCallback_found now profile db u hf] at h
    simp only [Prod.mk.injEq, Except.ok.injEq] at h
    obtain ⟨hu, hdb⟩ := h
    subst hu
    subst hdb
    exact verifyCallback_found now2 profile db u hf
  | none =>
    simp only [verifyCallback, User.findOne, hf] at h
    cases hc : User.create none now profile.id profile.displayName (newUserEmail profile) db with
    | error e =>
      rw [hc] at h
      simp at h
    | ok p =>
      obtain ⟨user2, db3⟩ := p
      rw [hc] at h
      simp only [Prod.mk.injEq, Except.ok.injEq] at h
      obtain ⟨hu, hdb⟩ := h
      subst hu
      subst hdb
      obtain ⟨hu, hdb, _, _, _, _⟩ := User.create_ok _ _ _ _ _ _ _ _ hc
      apply verifyCallback_found
      have hg : user2.googleId = profile.id := by rw [hu]
      rw [hdb]
      simp [List.find?_append, hf, List.find?, hg]

theorem lookup_wireProps_none (kvs : List (String × JVal)) (k : String)
    (h : k ∉ kvs.map Prod.fst) : (wireProps kvs).lookup k = none := by
  induction kvs with
  | nil => rfl
  | cons p rest ih =>
    obtain ⟨k2, v2⟩ := p
    simp only [List.map_cons, List.mem_cons, not_or] at h
    by_cases hv2 : v2 = .undefined
    · subst hv2
      rw [wireProps_cons_undefined]
      exact ih h.2
    · rw [wireProps_cons_defined k2 v2 rest hv2]
      have hb : (k == k2) = false := by simp [h.1]
      simp only [List.lookup, hb]
      exact ih h.2

theorem field_wireProps (kvs : List (String × JVal)) (k : String) (v : JVal)
    (hnd : (kvs.map Prod.fst).Nodup) (hm : (k, v) ∈ kvs) :
    ((wireProps kvs).lookup k).getD .undefined = v.wire := by
  by_cases hv : v = .undefined
  · subst hv
    have hnone : (wireProps kvs).lookup k = none := by
      induction kvs with
      | nil => cases hm
      | cons p rest ih =>
        obtain ⟨k2, v2⟩ := p
        simp only [List.map_cons, List.nodup_cons] at hnd
        rcases List.mem_cons.mp hm with heq | hm2
        · cases heq
          rw [wireProps_cons_undefined]
          exact lookup_wireProps_none rest k hnd.1
        · have hne : k ≠ k2 := by
            intro h
            subst h
            exact hnd.1 (List.mem_map_of_mem Prod.fst hm2)
          by_cases hv2 : v2 = .undefined
          · subst hv2
            rw [wireProps_cons_undefined]
            exact ih hnd.2 hm2
          · rw [wireProps_cons_defined k2 v2 rest hv2]
            have hb : (k == k2) = false := by simp [hne]
            simp only [List.lookup, hb]
            exact ih hnd.2 hm2
    rw [hnone]
    rfl
  · rw [lookup_wireProps kvs k v hnd hm hv]
    rfl

theorem sendJson_obj (code : Nat) (kvs : List (String × JVal)) :
    (sendJson code (.obj kvs)).status = code ∧
    (sendJson code (.obj kvs)).fieldNames = (wireProps kvs).map Prod.fst ∧
    ∀ k, (sendJson code (.obj kvs)).field k = ((wireProps kvs).lookup k).getD .undefined := by
  refine ⟨rfl, ?_, ?_⟩
  · simp [sendJson, Response.fieldNames, JVal.wire]
  · intro k
    simp [sendJson, Response.field, JVal.wire]

/-! ## The claims -/

/-- C1: dual gate on `POST /saveData` and `GET /records`.  `verifyApiKey` passes
exactly when the `x-app-api-key` header is present, non-empty and equal to the
configured `CLIENT_API_KEY`; when it does not pass, both routes answer 401 and
leave the store untouched, whatever the session; when it passes and the session
is not authenticated, both routes answer 401; the handlers run only when both
checks pass; and with the configured key unset or empty no request passes
`verifyApiKey`. -/
theorem C1_dual_gate (env : Env) (m : Mongoose) (outage : Option JsError) (now : Nat)
    (req : Request) (db : Db) :
    (verifyApiKey env req = Step.next ↔
      ∃ k, k ≠ "" ∧ req.apiKeyHeader = some k ∧ env.CLIENT_API_KEY = some k) ∧
    (verifyApiKey env req ≠ Step.next →
      postSaveData env m outage now req db =
        (messageResponse 401 "Unauthorized: Invalid Application API Key", db) ∧
      getRecords env outage req db =
        (messageResponse 401 "Unauthorized: Invalid Application API Key", db)) ∧
    (verifyApiKey env req = Step.next → req.user = none →
      postSaveData env m outage now req db =
        (messageResponse 401 "Unauthorized: User must be logged in to access this resource.",
          db) ∧
      getRecords env outage req db =
        (messageResponse 401 "Unauthorized: User must be logged in to access this resource.",
          db)) ∧
    (verifyApiKey env req = Step.next → req.user ≠ none →
      postSaveData env m outage now req db = saveDataHandler m outage now req db ∧
      getRecords env outage req db = recordsHandler outage req db) ∧
    ((env.CLIENT_API_KEY = none ∨ env.CLIENT_API_KEY = some "") →
      verifyApiKey env req ≠ Step.next) := by
  have hs := route_gate env (saveDataHandler m outage now) req db
  have hr := route_gate env (recordsHandler outage) req db
  refine ⟨verifyApiKey_next_iff env req, ?_, ?_, ?_, ?_⟩
  · intro h
    exact ⟨hs.1 h, hr.1 h⟩
  · intro h hu
    exact ⟨hs.2.1 h hu, hr.2.1 h hu⟩
  · intro h hu
    exact ⟨hs.2.2 h hu, hr.2.2 h hu⟩
  · intro hcfg hn
    obtain ⟨k, hk, _, hkey⟩ := (verifyApiKey_next_iff env req).mp hn
    rcases hcfg with h | h
    · rw [h] at hkey
      cases hkey
    · rw [h] at hkey
      exact hk (Option.some.inj hkey).symm

/-- C1 at concrete requests: a wrong key with a logged-in session, and the right
key without a session, are both refused with 401 on `POST /saveData`. -/
theorem C1_dual_gate_witness :
    postSaveData { CLIENT_API_KEY := some "s3cret" } exampleCasts none 0
        (mkRequest (some "wrong") (some alice)) { users := [alice], records := [], nextId := 3 } =
      (messageResponse 401 "Unauthorized: Invalid Application API Key",
        { users := [alice], records := [], nextId := 3 }) ∧
    postSaveData { CLIENT_API_KEY := some "s3cret" } exampleCasts none 0
        (mkRequest (some "s3cret") none) { users := [alice], records := [], nextId := 3 } =
      (messageResponse 401 "Unauthorized: User must be logged in to access this resource.",
        { users := [alice], records := [], nextId := 3 }) :=
  ⟨((C1_dual_gate { CLIENT_API_KEY := some "s3cret" } exampleCasts none 0
        (mkRequest (some "wrong") (some alice))
        { users := [alice], records := [], nextId := 3 }).2.1
      (by simp [verifyApiKey, mkRequest, strTruthy])).1,
   ((C1_dual_gate { CLIENT_API_KEY := some "s3cret" } exampleCasts none 0
        (mkRequest (some "s3cret") none)
        { users := [alice], records := [], nextId := 3 }).2.2.1
      (by simp [verifyApiKey, mkRequest, strTruthy]) rfl).1⟩

/-- C2: air-quality fallback in the fetcher.  For all coordinates `getAirQuality`
returns the default reading (15, "µg/m³") when the OpenAQ call fails, when the
response has no results, and when the first result has no or an empty
measurements list; it never fails, whatever the upstream outcome; and when the
first result has a first measurement it returns that measurement's `value` and
`unit` unchanged. -/
theorem C2_air_quality_fallback (w : World) (lat lon : JVal) :
    defaultAq = { airQualityRaw := .num 15, unit := .str "µg/m³" } ∧
    (∀ e, w.openAq lat lon = .error e → (getAirQuality w lat lon).1 = .ok defaultAq) ∧
    (∀ data, w.openAq lat lon = .ok data →
      (data.getProp "results" = .ok (.arr []) ∨ data.getProp "results" = .ok .undefined) →
      (getAirQuality w lat lon).1 = .ok defaultAq) ∧
    (∀ data first rest, w.openAq lat lon = .ok data →
      data.getProp "results" = .ok (.arr (first :: rest)) →
      (first.getProp "measurements" = .ok (.arr []) ∨
        first.getProp "measurements" = .ok .undefined) →
      (getAirQuality w lat lon).1 = .ok defaultAq) ∧
    (∃ r, (getAirQuality w lat lon).1 = .ok r) ∧
    (∀ data first rest m ms, w.openAq lat lon = .ok data →
      data.getProp "results" = .ok (.arr (first :: rest)) →
      first.getProp "measurements" = .ok (.arr (m :: ms)) →
      m.truthy = true →
      ∃ value unit, m.getProp "value" = .ok value ∧ m.getProp "unit" = .ok unit ∧
        (getAirQuality w lat lon).1 = .ok { airQualityRaw := value, unit := unit }) := by
  refine ⟨rfl, ?_, ?_, ?_, getAirQualityOf_total _, ?_⟩
  · intro e he
    simp [getAirQuality, getAirQualityOf, tryCatch, he, bind, Except.bind, pure, Except.pure]
  · intro data hd hres
    rcases hres with h | h <;>
      simp [getAirQuality, getAirQualityOf, tryCatch, firstMeasurement, hd, h, bind, Except.bind,
        pure, Except.pure, JVal.getIndex, JVal.nullish, JVal.truthy]
  · intro data first rest hd hres hms
    have hnn : first.nullish = false := by
      cases first <;> simp [JVal.getProp, JVal.nullish] at hms ⊢
    rcases hms with h | h <;>
      simp [getAirQuality, getAirQualityOf, tryCatch, firstMeasurement, hd, hres, h, hnn, bind,
        Except.bind, pure, Except.pure, JVal.getIndex, JVal.truthy]
  · intro data first rest m ms hd hres hms hm
    have hnn : first.nullish = false := by
      cases first <;> simp [JVal.getProp, JVal.nullish] at hms ⊢
    obtain ⟨value, hv⟩ := getProp_of_truthy m "value" hm
    obtain ⟨unit, hu⟩ := getProp_of_truthy m "unit" hm
    refine ⟨value, unit, hv, hu, ?_⟩
    simp [getAirQuality, getAirQualityOf, tryCatch, firstMeasurement, hd, hres, hms, hnn, hm, hv,
      hu, bind, Except.bind, pure, Except.pure, JVal.getIndex]

/-- C2 at a response carrying one measurement: its value and unit are returned
unchanged. -/
theorem C2_air_quality_fallback_witness :
    ∃ value unit,
      (JVal.obj [("parameter", .str "pm25"), ("value", .num 9), ("unit", .str "µg/m³")]).getProp
        "value" = .ok value ∧
      (JVal.obj [("parameter", .str "pm25"), ("value", .num 9), ("unit", .str "µg/m³")]).getProp
        "unit" = .ok unit ∧
      (getAirQuality
        { parisWorld with
          openAq := fun _ _ => .ok (.obj [("results", .arr [.obj [("measurements",
            .arr [.obj [("parameter", .str "pm25"), ("value", .num 9),
              ("unit", .str "µg/m³")]])]])]) }
        (.num 48) (.num 2)).1 = .ok { airQualityRaw := value, unit := unit } :=
  (C2_air_quality_fallback
    { parisWorld with
      openAq := fun _ _ => .ok (.obj [("results", .arr [.obj [("measurements",
        .arr [.obj [("parameter", .str "pm25"), ("value", .num 9),
          ("unit", .str "µg/m³")]])]])]) }
    (.num 48) (.num 2)).2.2.2.2.2
    (.obj [("results", .arr [.obj [("measurements",
        .arr [.obj [("parameter", .str "pm25"), ("value", .num 9),
          ("unit", .str "µg/m³")]])]])])
    (.obj [("measurements",
        .arr [.obj [("parameter", .str "pm25"), ("value", .num 9),
          ("unit", .str "µg/m³")]])])
    []
    (.obj [("parameter", .str "pm25"), ("value", .num 9), ("unit", .str "µg/m³")])
    [] rfl rfl rfl rfl

/-- C3 as stated fails: with GeoDB and the weather service answering and OpenAQ
unreachable, the aggregation succeeds with airQualityRaw 15, but its result has
no `unit` field, so `unit` is not "µg/m³". -/
theorem C3_result_has_no_unit :
    (mkRequest none none).queryCity.truthy = true ∧
    (getCityDetails parisWorld (mkRequest none none).queryCity).1 =
      .ok { city := .str "Paris", country := .str "France", lat := .num 48, lon := .num 2,
            population := .num 2138551 } ∧
    (getWeather parisWorld (.num 48) (.num 2)).1 = .ok { temperatureRaw := .num 293 } ∧
    parisWorld.openAq (.num 48) (.num 2) =
      .error { name := "AxiosError", message := "Network Error" } ∧
    (calculateScore parisWorld (mkRequest none none)).1.status = 200 ∧
    (calculateScore parisWorld (mkRequest none none)).1.field "airQualityRaw" = .num 15 ∧
    "unit" ∉ (calculateScore parisWorld (mkRequest none none)).1.fieldNames ∧
    (calculateScore parisWorld (mkRequest none none)).1.field "unit" ≠ .str "µg/m³" := by
  refine ⟨rfl, rfl, rfl, rfl, rfl, rfl, ?_, ?_⟩
  · have h : (calculateScore parisWorld (mkRequest none none)).1.fieldNames =
        ["city", "country", "population", "airQualityRaw", "temperatureRaw"] := rfl
    rw [h]
    decide
  · have h : (calculateScore parisWorld (mkRequest none none)).1.field "unit" = .undefined := rfl
    rw [h]
    intro hc
    cases hc

/-- C3 (amended): air-quality fallback at the pipeline level.  For a non-empty
city whose location resolves and whose weather call succeeds, if the OpenAQ call
fails or returns no measurement, the fetcher yields the default reading
(15, "µg/m³"), the aggregation answers 200 and its result has airQualityRaw 15;
the result has no `unit` field: the unit stays in the fetcher's reading. -/
theorem C3_pipeline_fallback (w : World) (req : Request) (cd : CityDetails)
    (wd : WeatherReading)
    (hcity : req.queryCity.truthy = true)
    (hgeo : (getCityDetails w req.queryCity).1 = .ok cd)
    (hweather : (getWeather w cd.lat cd.lon).1 = .ok wd)
    (haq : (∃ e, w.openAq cd.lat cd.lon = .error e) ∨
      (∃ data, w.openAq cd.lat cd.lon = .ok data ∧
        (data.getProp "results" = .ok (.arr []) ∨ data.getProp "results" = .ok .undefined)) ∨
      (∃ data first rest, w.openAq cd.lat cd.lon = .ok data ∧
        data.getProp "results" = .ok (.arr (first :: rest)) ∧
        (first.getProp "measurements" = .ok (.arr []) ∨
          first.getProp "measurements" = .ok .undefined))) :
    (getAirQuality w cd.lat cd.lon).1 =
      .ok { airQualityRaw := .num 15, unit := .str "µg/m³" } ∧
    (calculateScore w req).1.status = 200 ∧
    (calculateScore w req).1.field "airQualityRaw" = .num 15 ∧
    "unit" ∉ (calculateScore w req).1.fieldNames := by
  have hc := calculateScore_geo_ok w req cd hcity hgeo
  have ha : (getAirQuality w cd.lat cd.lon).1 = .ok defaultAq := by
    simp only [getAirQuality, getAirQualityOf_noMeasurement _ haq]
  rw [ha, hweather] at hc
  simp only [promiseAll2] at hc
  rw [hc]
  obtain ⟨hst, hnames, hfield⟩ := sendJson_obj 200
    [("city", cd.city), ("country", cd.country), ("population", cd.population),
      ("airQualityRaw", defaultAq.airQualityRaw), ("temperatureRaw", wd.temperatureRaw)]
  refine ⟨ha, hst, ?_, ?_⟩
  · show (sendJson 200 _).field "airQualityRaw" = JVal.num 15
    rw [hfield, field_wireProps _ "airQualityRaw" (.num 15)
      (by simp only [List.map_cons, List.map_nil]; decide) (by simp [defaultAq])]
    rfl
  · show "unit" ∉ (sendJson 200 _).fieldNames
    rw [hnames, mem_keys_wireProps]
    rintro ⟨v, hm, _⟩
    simp at hm

/-- C3 (amended) at the world where OpenAQ is unreachable. -/
theorem C3_pipeline_fallback_witness :
    (calculateScore parisWorld (mkRequest none none)).1.status = 200 ∧
    (calculateScore parisWorld (mkRequest none none)).1.field "airQualityRaw" = .num 15 :=
  let h := C3_pipeline_fallback parisWorld (mkRequest none none)
    { city := .str "Paris", country := .str "France", lat := .num 48, lon := .num 2,
      population := .num 2138551 }
    { temperatureRaw := .num 293 } rfl rfl rfl
    (Or.inl ⟨{ name := "AxiosError", message := "Network Error" }, rfl⟩)
  ⟨h.2.1, h.2.2.1⟩

/-- C4: weather failure is fatal.  For a non-empty city whose location resolves,
if the weather call fails then `GET /api/calculate-score` answers 500 with a body
of exactly `message` and `error`, where `error` is "OpenWeatherMap Error: "
followed by the underlying message; no field of the raw score inputs is sent;
and this holds for every air-quality outcome. -/
theorem C4_weather_failure_fatal (w : World) (req : Request) (cd : CityDetails) (e : JsError)
    (hcity : req.queryCity.truthy = true)
    (hgeo : (getCityDetails w req.queryCity).1 = .ok cd)
    (hweather : w.openWeather cd.lat cd.lon = .error e) :
    (calculateScore w req).1 =
      errorResponse 500 "Failed to fetch city data from external APIs."
        ("OpenWeatherMap Error: " ++ e.message) ∧
    (calculateScore w req).1.status = 500 ∧
    (calculateScore w req).1.fieldNames = ["message", "error"] ∧
    (∀ k ∈ ["city", "country", "population", "airQualityRaw", "temperatureRaw"],
      k ∉ (calculateScore w req).1.fieldNames) := by
  have hc := calculateScore_geo_ok w req cd hcity hgeo
  obtain ⟨aq, haq⟩ := getAirQualityOf_total (w.openAq cd.lat cd.lon)
  have hw : (getWeather w cd.lat cd.lon).1 =
      .error (mkError ("OpenWeatherMap Error: " ++ e.message)) := by
    simp only [getWeather, hweather, getWeatherOf_error]
  have ha : (getAirQuality w cd.lat cd.lon).1 = .ok aq := by
    simp only [getAirQuality, haq]
  rw [ha, hw] at hc
  simp only [promiseAll2] at hc
  rw [hc]
  refine ⟨rfl, rfl, rfl, ?_⟩
  simp [Response.fieldNames, errorResponse, sendJson, JVal.wire, wireProps]

/-- C4 at a world where GeoDB answers and the weather service is unreachable. -/
theorem C4_weather_failure_fatal_witness :
    (calculateScore
        { parisWorld with
          openWeather := fun _ _ => .error { name := "AxiosError", message := "timeout" } }
        (mkRequest none none)).1 =
      errorResponse 500 "Failed to fetch city data from external APIs."
        ("OpenWeatherMap Error: " ++ "timeout") :=
  (C4_weather_failure_fatal
    { parisWorld with
      openWeather := fun _ _ => .error { name := "AxiosError", message := "timeout" } }
    (mkRequest none none)
    { city := .str "Paris", country := .str "France", lat := .num 48, lon := .num 2,
      population := .num 2138551 }
    { name := "AxiosError", message := "timeout" } rfl rfl rfl).1

/-- C5: a request to `GET /api/calculate-score` whose `city` query parameter is
absent or empty is answered with status 400 and none of the three external
calls is issued. -/
theorem C5_missing_city (w : World) (req : Request)
    (h : req.queryCity = .undefined ∨ req.queryCity = .str "") :
    calculateScore w req = (messageResponse 400 "City parameter is required.", []) ∧
    (calculateScore w req).1.status = 400 ∧
    (calculateScore w req).2 = [] := by
  have hc : calculateScore w req = (messageResponse 400 "City parameter is required.", []) := by
    rcases h with h | h <;> simp [calculateScore, h, JVal.truthy]
  rw [hc]
  exact ⟨rfl, rfl, rfl⟩

/-- C5 at a request without `city`, in a world where every service would answer. -/
theorem C5_missing_city_witness :
    calculateScore parisWorld
        { apiKeyHeader := none, user := none, queryCity := .undefined, body := parisBody } =
      (messageResponse 400 "City parameter is required.", []) :=
  (C5_missing_city parisWorld
    { apiKeyHeader := none, user := none, queryCity := .undefined, body := parisBody }
    (Or.inl rfl)).1

/-- C6 as stated fails: when the first geo-lookup result carries no population,
the resolver still returns a location and the weather call succeeds, but the 200
response has four fields, not five: the serialiser omits `population`, whose
value is undefined. -/
theorem C6_undefined_field_is_omitted :
    (mkRequest none none).queryCity.truthy = true ∧
    (getCityDetails { parisWorld with geoDb := fun _ => .ok noPopulationGeoBody }
        (mkRequest none none).queryCity).1 =
      .ok { city := .str "Paris", country := .str "France", lat := .num 48, lon := .num 2,
            population := .undefined } ∧
    (getWeather { parisWorld with geoDb := fun _ => .ok noPopulationGeoBody }
        (.num 48) (.num 2)).1 = .ok { temperatureRaw := .num 293 } ∧
    (calculateScore { parisWorld with geoDb := fun _ => .ok noPopulationGeoBody }
        (mkRequest none none)).1.status = 200 ∧
    (calculateScore { parisWorld with geoDb := fun _ => .ok noPopulationGeoBody }
        (mkRequest none none)).1.fieldNames =
      ["city", "country", "airQualityRaw", "temperatureRaw"] ∧
    (calculateScore { parisWorld with geoDb := fun _ => .ok noPopulationGeoBody }
        (mkRequest none none)).1.fieldNames ≠
      ["city", "country", "population", "airQualityRaw", "temperatureRaw"] := by
  refine ⟨rfl, rfl, rfl, rfl, rfl, ?_⟩
  have h : (calculateScore { parisWorld with geoDb := fun _ => .ok noPopulationGeoBody }
      (mkRequest none none)).1.fieldNames =
      ["city", "country", "airQualityRaw", "temperatureRaw"] := rfl
  rw [h]
  decide

/-- C6 (amended): successful aggregation is a faithful merge.  For a non-empty
city for which the resolver returns a location and the weather call succeeds,
the answer is 200 and is the serialisation of the five properties city, country,
population, airQualityRaw, temperatureRaw, where city, country and population
are the resolver's output (the name, country and population of the first
geo-lookup result), airQualityRaw is the air-quality fetcher's value and
temperatureRaw the weather fetcher's temperature.  Each of the five is a field
of the response exactly when its value is not undefined, and then carries that
value (unchanged when it is plain JSON); the response has no other field, so
latitude and longitude are never included; and when none of the five values is
undefined the response has exactly the five fields. -/
theorem C6_faithful_merge (w : World) (req : Request) (cd : CityDetails) (wd : WeatherReading)
    (hcity : req.queryCity.truthy = true)
    (hgeo : (getCityDetails w req.queryCity).1 = .ok cd)
    (hweather : (getWeather w cd.lat cd.lon).1 = .ok wd) :
    ∃ aq, (getAirQuality w cd.lat cd.lon).1 = .ok aq ∧
      (calculateScore w req).1 = sendJson 200 (.obj
        [("city", cd.city), ("country", cd.country), ("population", cd.population),
          ("airQualityRaw", aq.airQualityRaw), ("temperatureRaw", wd.temperatureRaw)]) ∧
      (calculateScore w req).1.status = 200 ∧
      (∀ k v, (k, v) ∈
          [("city", cd.city), ("country", cd.country), ("population", cd.population),
            ("airQualityRaw", aq.airQualityRaw), ("temperatureRaw", wd.temperatureRaw)] →
        (k ∈ (calculateScore w req).1.fieldNames ↔ v ≠ .undefined) ∧
        (calculateScore w req).1.field k = v.wire ∧
        (v.isJson = true → (calculateScore w req).1.field k = v)) ∧
      (∀ k ∈ (calculateScore w req).1.fieldNames,
        k ∈ ["city", "country", "population", "airQualityRaw", "temperatureRaw"]) ∧
      (∀ k ∈ ["lat", "lon", "latitude", "longitude"],
        k ∉ (calculateScore w req).1.fieldNames) ∧
      (cd.city ≠ .undefined → cd.country ≠ .undefined → cd.population ≠ .undefined →
        aq.airQualityRaw ≠ .undefined → wd.temperatureRaw ≠ .undefined →
        (calculateScore w req).1.fieldNames =
          ["city", "country", "population", "airQualityRaw", "temperatureRaw"]) ∧
      (∃ data list first, w.geoDb req.queryCity = .ok data ∧
        data.getProp "data" = .ok list ∧ list.getIndex 0 = .ok first ∧
        first.getProp "name" = .ok cd.city ∧ first.getProp "country" = .ok cd.country ∧
        first.getProp "population" = .ok cd.population) := by
  have hc := calculateScore_geo_ok w req cd hcity hgeo
  obtain ⟨aq, haq⟩ := getAirQualityOf_total (w.openAq cd.lat cd.lon)
  have ha : (getAirQuality w cd.lat cd.lon).1 = .ok aq := by
    simp only [getAirQuality, haq]
  rw [ha, hweather] at hc
  simp only [promiseAll2] at hc
  obtain ⟨data, list, first, h0, h1, h2, _, h3, h4, _, _, h5⟩ :=
    getCityDetailsOf_ok (w.geoDb req.queryCity) cd (by simpa [getCityDetails] using hgeo)
  obtain ⟨hst, hnames, hfield⟩ := sendJson_obj 200
    [("city", cd.city), ("country", cd.country), ("population", cd.population),
      ("airQualityRaw", aq.airQualityRaw), ("temperatureRaw", wd.temperatureRaw)]
  have hnd : (List.map Prod.fst
      [("city", cd.city), ("country", cd.country), ("population", cd.population),
        ("airQualityRaw", aq.airQualityRaw), ("temperatureRaw", wd.temperatureRaw)]).Nodup := by
    simp only [List.map_cons, List.map_nil]
    decide
  have hres : (calculateScore w req).1 = sendJson 200 (.obj
      [("city", cd.city), ("country", cd.country), ("population", cd.population),
        ("airQualityRaw", aq.airQualityRaw), ("temperatureRaw", wd.temperatureRaw)]) := by
    rw [hc]
  have hsub : ∀ k ∈ (calculateScore w req).1.fieldNames,
      k ∈ ["city", "country", "population", "airQualityRaw", "temperatureRaw"] := by
    intro k hk
    rw [hres, hnames, mem_keys_wireProps] at hk
    obtain ⟨v, hm, _⟩ := hk
    have := List.mem_map_of_mem Prod.fst hm
    simpa using this
  refine ⟨aq, ha, hres, ?_, ?_, hsub, ?_, ?_, ⟨data, list, first, h0, h1, h2, h3, h4, h5⟩⟩
  · rw [hres]
    exact hst
  · intro k v hm
    have hf : (calculateScore w req).1.field k = v.wire := by
      rw [hres, hfield, field_wireProps _ k v hnd hm]
    refine ⟨?_, hf, ?_⟩
    · rw [hres, hnames, mem_keys_wireProps]
      constructor
      · rintro ⟨v2, hm2, hne⟩
        have h1 := field_wireProps _ k v hnd hm
        have h2 := field_wireProps _ k v2 hnd hm2
        intro hv
        subst hv
        rw [h1] at h2
        exact wire_ne_undefined v2 hne h2.symm
      · intro hne
        exact ⟨v, hm, hne⟩
    · intro hj
      rw [hf, wire_of_isJson v hj]
  · intro k hk hin
    have h5 := hsub k hin
    simp only [List.mem_cons, List.mem_singleton, List.not_mem_nil, or_false] at hk
    rcases hk with rfl | rfl | rfl | rfl <;> simp at h5
  · intro d1 d2 d3 d4 d5
    rw [hres, hnames, wireProps_cons_defined _ _ _ d1, wireProps_cons_defined _ _ _ d2,
      wireProps_cons_defined _ _ _ d3, wireProps_cons_defined _ _ _ d4,
      wireProps_cons_defined _ _ _ d5]
    rfl

/-- C6 (amended) at a world where all three services answer with data: the
response has exactly the five fields. -/
theorem C6_faithful_merge_witness :
    ∃ aq, (getAirQuality
        { parisWorld with
          openAq := fun _ _ => .ok (.obj [("results", .arr [.obj [("measurements",
            .arr [.obj [("parameter", .str "pm25"), ("value", .num 9), ("unit", .str "µg/m³")]])]])]) }
        (.num 48) (.num 2)).1 = .ok aq ∧
      (calculateScore
        { parisWorld with
          openAq := fun _ _ => .ok (.obj [("results", .arr [.obj [("measurements",
            .arr [.obj [("parameter", .str "pm25"), ("value", .num 9), ("unit", .str "µg/m³")]])]])]) }
        (mkRequest none none)).1 =
        sendJson 200 (.obj [
            ("city", .str "Paris"), ("country", .str "France"), ("population", .num 2138551),
            ("airQualityRaw", aq.airQualityRaw), ("temperatureRaw", .num 293)]) :=
  let ⟨aq, h1, h2, _⟩ := C6_faithful_merge
    { parisWorld with
      openAq := fun _ _ => .ok (.obj [("results", .arr [.obj [("measurements",
        .arr [.obj [("parameter", .str "pm25"), ("value", .num 9), ("unit", .str "µg/m³")]])]])]) }
    (mkRequest none none)
    { city := .str "Paris", country := .str "France", lat := .num 48, lon := .num 2,
      population := .num 2138551 }
    { temperatureRaw := .num 293 } rfl rfl rfl
  ⟨aq, h1, h2⟩

/-- C7: record listing is owner-scoped and ordered.  For every store content and
every authenticated user passing the dual gate, `GET /records` answers 200 with
exactly the records whose `userId` is the caller's id (each as often as it is
stored, no record of another user), ordered by `totalScore` descending. -/
theorem C7_records_owner_scoped_sorted (env : Env) (req : Request) (db : Db) (u : UserDoc)
    (hkey : verifyApiKey env req = Step.next) (huser : req.user = some u) :
    ∃ rs, getRecords env none req db = ({ status := 200, body := .records rs }, db) ∧
      List.Perm rs (db.records.filter (fun r => r.userId == u.id)) ∧
      (∀ r, r ∈ rs ↔ r ∈ db.records ∧ r.userId = u.id) ∧
      List.Sorted (fun a b => a.totalScore ≥ b.totalScore) rs := by
  refine ⟨_, getRecords_passed env req db u hkey huser, sortByTotalScoreDesc_perm _, ?_,
    sortByTotalScoreDesc_sorted _⟩
  intro r
  rw [(sortByTotalScoreDesc_perm _).mem_iff]
  simp [List.mem_filter]

/-- C7 at the sample store: `alice`, whose records have scores 40, 90 and 65,
gets them as 90, 65, 40, and the record of `bob` is not in the answer. -/
theorem C7_records_owner_scoped_sorted_witness :
    ∃ rs, getRecords { CLIENT_API_KEY := some "s3cret" } none
        (mkRequest (some "s3cret") (some alice)) sampleDb =
        ({ status := 200, body := .records rs }, sampleDb) ∧
      rs.map (fun r => r.totalScore) = [90, 65, 40] ∧
      scoreRecord 4 2 99 ∉ rs := by
  obtain ⟨rs, h, _, hmem, _⟩ := C7_records_owner_scoped_sorted
    { CLIENT_API_KEY := some "s3cret" } (mkRequest (some "s3cret") (some alice)) sampleDb alice
    (by simp [verifyApiKey, mkRequest, strTruthy]) rfl
  have h2 := getRecords_passed { CLIENT_API_KEY := some "s3cret" }
    (mkRequest (some "s3cret") (some alice)) sampleDb alice
    (by simp [verifyApiKey, mkRequest, strTruthy]) rfl
  refine ⟨rs, h, ?_, ?_⟩
  · rw [h] at h2
    simp only [Prod.mk.injEq, Response.mk.injEq, Body.records.injEq, true_and, and_true] at h2
    rw [h2]
    decide
  · intro hin
    have := ((hmem _).mp hin).2
    revert this
    decide

/-- C8 as stated fails in two places.  The record created by the example request
carries its timestamp under `dateSaved` and its identifier under `_id`; it has no
`savedAt` and no `id` field.  And the values are not identical for every body
with the required fields present: a body whose totalScore is the string "77" is
saved with 201 and the record holds the number 77. -/
theorem C8_record_has_no_savedAt :
    (∃ rec db2,
      postSaveData { CLIENT_API_KEY := some "s3cret" } exampleCasts none 1000
          (mkRequest (some "s3cret") (some alice)) sampleDb =
        ({ status := 201, body := .saved "Record saved successfully" rec }, db2) ∧
      "savedAt" ∉ rec.fieldNames ∧ "id" ∉ rec.fieldNames ∧
      "dateSaved" ∈ rec.fieldNames ∧ "_id" ∈ rec.fieldNames) ∧
    (∃ rec db2,
      postSaveData { CLIENT_API_KEY := some "s3cret" } exampleCasts none 1000
          { mkRequest (some "s3cret") (some alice) with body := parisBodyStringScore }
          sampleDb =
        ({ status := 201, body := .saved "Record saved successfully" rec }, db2) ∧
      parisBodyStringScore.getProp "totalScore" = .ok (.str "77") ∧
      rec.totalScore = 77) := by
  constructor
  · exact ⟨{ scoreRecord 7 1 77 with dateSaved := 1000 },
      { sampleDb with
        records := sampleDb.records ++ [{ scoreRecord 7 1 77 with dateSaved := 1000 }],
        nextId := 8 }, rfl, by decide, by decide, by decide, by decide⟩
  · exact ⟨{ scoreRecord 7 1 77 with dateSaved := 1000 },
      { sampleDb with
        records := sampleDb.records ++ [{ scoreRecord 7 1 77 with dateSaved := 1000 }],
        nextId := 8 }, rfl, rfl, rfl⟩

/-- C8 (amended): save/list round trip.  For an authenticated user passing the
dual gate: a body whose city and country are non-empty strings and whose
totalScore and three wellbeingFactors are numbers is saved with 201 when the
store is available, and the record holds exactly those values; and whenever
`POST /saveData` answers 201 with a record, that record's city, country,
totalScore and three wellbeingFactors are the body's members as cast to the
schema types, its `userId` is the caller's id, its fields are `userId`, `city`,
`country`, `totalScore`, `wellbeingFactors`, `_id`, `dateSaved`, `__v`, and a
following `GET /records` by the same user returns it. -/
theorem C8_save_list_round_trip (env : Env) (m : Mongoose) (now : Nat)
    (req reqList : Request) (db : Db) (u : UserDoc)
    (hkey : verifyApiKey env req = Step.next) (huser : req.user = some u)
    (hkeyL : verifyApiKey env reqList = Step.next) (huserL : reqList.user = some u) :
    (∀ (city country : String) (score pd aq wc : Rat) (kvs : List (String × JVal)),
      city ≠ "" → country ≠ "" →
      req.body.getProp "city" = .ok (.str city) →
      req.body.getProp "country" = .ok (.str country) →
      req.body.getProp "totalScore" = .ok (.num score) →
      req.body.getProp "wellbeingFactors" = .ok (.obj kvs) →
      kvs.lookup "populationDensity" = some (.num pd) →
      kvs.lookup "airQuality" = some (.num aq) →
      kvs.lookup "weatherComfort" = some (.num wc) →
      ∃ rec db2, postSaveData env m none now req db =
          ({ status := 201, body := .saved "Record saved successfully" rec }, db2) ∧
        rec.city = city ∧ rec.country = country ∧ rec.totalScore = score ∧
        rec.wellbeingFactors =
          { populationDensity := pd, airQuality := aq, weatherComfort := wc }) ∧
    (∀ outage msg rec db2,
      postSaveData env m outage now req db = ({ status := 201, body := .saved msg rec }, db2) →
      (∃ city country totalScore kvs,
        req.body.getProp "city" = .ok city ∧ m.castString city = .ok (some rec.city) ∧
        req.body.getProp "country" = .ok country ∧
        m.castString country = .ok (some rec.country) ∧
        req.body.getProp "totalScore" = .ok totalScore ∧
        m.castNumber totalScore = .ok (some rec.totalScore) ∧
        req.body.getProp "wellbeingFactors" = .ok (.obj kvs) ∧
        m.castNumber ((kvs.lookup "populationDensity").getD .undefined) =
          .ok (some rec.wellbeingFactors.populationDensity) ∧
        m.castNumber ((kvs.lookup "airQuality").getD .undefined) =
          .ok (some rec.wellbeingFactors.airQuality) ∧
        m.castNumber ((kvs.lookup "weatherComfort").getD .undefined) =
          .ok (some rec.wellbeingFactors.weatherComfort)) ∧
      rec.userId = u.id ∧
      List.Perm rec.fieldNames
        ["userId", "city", "country", "totalScore", "wellbeingFactors", "_id", "dateSaved",
          "__v"] ∧
      ∃ rs, getRecords env none reqList db2 = ({ status := 200, body := .records rs }, db2) ∧
        rec ∈ rs) := by
  constructor
  · intro city country score pd aq wc kvs hcity hcountry h1 h2 h3 h4 k1 k2 k3
    obtain ⟨doc, hdoc, hsave⟩ := Record.save_typed m now u.id db city country score pd aq wc
      kvs hcity hcountry k1 k2 k3
    rw [postSaveData_passed env m none now req db u _ _ _ _ hkey huser h1 h2 h3 h4, hsave]
    refine ⟨doc, _, rfl, ?_, ?_, ?_, ?_⟩ <;> rw [hdoc]
  · intro outage msg rec db2 hpost
    obtain ⟨city, country, totalScore, factors, h1, h2, h3, h4, hsave⟩ :=
      postSaveData_created env m outage now req db u msg rec db2 hkey huser hpost
    obtain ⟨_, c1, c2, c3, c4, _, _, huid, _, _, hdb2⟩ := Record.save_ok _ _ _ _ _ _ _ _ _ _ _ hsave
    obtain ⟨kvs, hobj, f1, f2, f3⟩ := castFactors_ok m factors rec.wellbeingFactors c4
    subst hobj
    refine ⟨⟨city, country, totalScore, kvs, h1, c1, h2, c2, h3, c3, h4, f1, f2, f3⟩, huid,
      List.Perm.refl _, _, getRecords_passed env reqList db2 u hkeyL huserL, ?_⟩
    rw [(sortByTotalScoreDesc_perm _).mem_iff, List.mem_filter, hdb2]
    simp [huid]

/-- C8 (amended) at the example body: saved by `alice` and listed back with the
same city, country, score and factors. -/
theorem C8_save_list_round_trip_witness :
    ∃ rec db2 rs,
      postSaveData { CLIENT_API_KEY := some "s3cret" } exampleCasts none 1000
          (mkRequest (some "s3cret") (some alice)) sampleDb =
        ({ status := 201, body := .saved "Record saved successfully" rec }, db2) ∧
      getRecords { CLIENT_API_KEY := some "s3cret" } none
          (mkRequest (some "s3cret") (some alice)) db2 =
        ({ status := 200, body := .records rs }, db2) ∧
      rec ∈ rs ∧
      rec.city = "Paris" ∧ rec.country = "France" ∧ rec.totalScore = 77 ∧
      rec.wellbeingFactors = { populationDensity := 5, airQuality := 8, weatherComfort := 9 } := by
  have hk : verifyApiKey { CLIENT_API_KEY := some "s3cret" }
      (mkRequest (some "s3cret") (some alice)) = Step.next := by
    simp [verifyApiKey, mkRequest, strTruthy]
  have h := C8_save_list_round_trip { CLIENT_API_KEY := some "s3cret" } exampleCasts 1000
    (mkRequest (some "s3cret") (some alice)) (mkRequest (some "s3cret") (some alice))
    sampleDb alice hk rfl hk rfl
  obtain ⟨rec, db2, hpost, r1, r2, r3, r4⟩ := h.1 "Paris" "France" 77 5 8 9
    [("populationDensity", .num 5), ("airQuality", .num 8), ("weatherComfort", .num 9)]
    (by decide) (by decide) rfl rfl rfl rfl rfl rfl rfl
  obtain ⟨_, _, _, rs, hget, hmem⟩ := h.2 none _ rec db2 hpost
  exact ⟨rec, db2, rs, hpost, hget, hmem, r1, r2, r3, r4⟩

/-- C9 as stated fails: a GeoDB response with zero matches and a transport
failure whose message is "City not found via GeoDB." make `getCityDetails` signal
the very same error (class `Error`, same message), so the not-found case is not
distinguishable from an upstream failure. -/
theorem C9_not_found_not_distinguishable :
    (getCityDetails { parisWorld with geoDb := fun _ => .ok (.obj [("data", .arr [])]) }
        (.str "Atlantis")).1 =
      .error { name := "Error", message := "GeoDB Error: City not found via GeoDB." } ∧
    (getCityDetails
        { parisWorld with
          geoDb := fun _ =>
            .error { name := "AxiosError", message := "City not found via GeoDB." } }
        (.str "Atlantis")).1 =
      .error { name := "Error", message := "GeoDB Error: City not found via GeoDB." } :=
  ⟨rfl, rfl⟩

/-- C9 (amended): city resolution failure modes.  `getCityDetails` takes exactly
the first result of the geo-lookup response; with zero matches it throws an
`Error` with message "GeoDB Error: City not found via GeoDB."; on a transport
failure it throws an `Error` with message "GeoDB Error: " followed by the
underlying message; the two are the same kind of error and coincide exactly when
the underlying message is "City not found via GeoDB."; in every failure of the
resolver `GET /api/calculate-score` answers 500 with `message` and `error`, and
the only outbound call issued is the geo lookup. -/
theorem C9_city_resolution_failures (w : World) (req : Request) :
    (∀ cd, (getCityDetails w req.queryCity).1 = .ok cd →
      ∃ data list first, w.geoDb req.queryCity = .ok data ∧
        data.getProp "data" = .ok list ∧ list.getIndex 0 = .ok first ∧
        first.getProp "name" = .ok cd.city ∧ first.getProp "country" = .ok cd.country ∧
        first.getProp "latitude" = .ok cd.lat ∧ first.getProp "longitude" = .ok cd.lon ∧
        first.getProp "population" = .ok cd.population) ∧
    (∀ data, w.geoDb req.queryCity = .ok data → data.getProp "data" = .ok (.arr []) →
      (getCityDetails w req.queryCity).1 =
        .error (mkError "GeoDB Error: City not found via GeoDB.")) ∧
    (∀ e, w.geoDb req.queryCity = .error e →
      (getCityDetails w req.queryCity).1 = .error (mkError ("GeoDB Error: " ++ e.message))) ∧
    (∀ e : JsError,
      mkError ("GeoDB Error: " ++ e.message) = mkError "GeoDB Error: City not found via GeoDB." ↔
        e.message = "City not found via GeoDB.") ∧
    (∀ err, req.queryCity.truthy = true → (getCityDetails w req.queryCity).1 = .error err →
      calculateScore w req =
        (errorResponse 500 "Failed to fetch city data from external APIs." err.message,
          [Call.geoDb req.queryCity]) ∧
      (calculateScore w req).1.status = 500 ∧
      (calculateScore w req).1.fieldNames = ["message", "error"]) := by
  refine ⟨?_, ?_, ?_, ?_, ?_⟩
  · intro cd h
    obtain ⟨data, list, first, h0, h1, h2, _, h3, h4, h5, h6, h7⟩ :=
      getCityDetailsOf_ok (w.geoDb req.queryCity) cd (by simpa [getCityDetails] using h)
    exact ⟨data, list, first, h0, h1, h2, h3, h4, h5, h6, h7⟩
  · intro data hd hl
    simp [getCityDetails, getCityDetailsOf, tryCatch, hd, hl, bind, Except.bind, throw,
      throwThe, MonadExceptOf.throw, JVal.getIndex, JVal.truthy, mkError]
  · intro e he
    simp [getCityDetails, getCityDetailsOf, tryCatch, he, bind, Except.bind, throw,
      throwThe, MonadExceptOf.throw]
  · intro e
    simp only [mkError, JsError.mk.injEq, true_and]
    exact geoDb_message_eq_iff e.message
  · intro err hcity herr
    have hc : calculateScore w req =
        (errorResponse 500 "Failed to fetch city data from external APIs." err.message,
          [Call.geoDb req.queryCity]) := by
      simp only [getCityDetails] at herr
      simp only [calculateScore, hcity, getCityDetails, herr]
      rfl
    rw [hc]
    exact ⟨rfl, rfl, rfl⟩

/-- C9 (amended) at a world whose geo lookup returns zero matches: the answer is
500 and only the geo lookup was called. -/
theorem C9_city_resolution_failures_witness :
    calculateScore { parisWorld with geoDb := fun _ => .ok (.obj [("data", .arr [])]) }
        (mkRequest none none) =
      (errorResponse 500 "Failed to fetch city data from external APIs."
          "GeoDB Error: City not found via GeoDB.",
        [Call.geoDb (.str "Paris")]) :=
  ((C9_city_resolution_failures
      { parisWorld with geoDb := fun _ => .ok (.obj [("data", .arr [])]) }
      (mkRequest none none)).2.2.2.2
    (mkError "GeoDB Error: City not found via GeoDB.") rfl rfl).1

/-- C10 as stated fails: for a profile without emails the created user's email
is not absent, it is the string "No Email"; and for a profile whose display name
is empty the `required` validator rejects the document, so the callback reports
an error and creates no user. -/
theorem C10_email_defaults_to_No_Email :
    verifyCallback none 5 { id := "g-carol", displayName := "Carol", emails := none }
        { users := [alice, bob], records := [], nextId := 3 } =
      (.ok { _id := 3, googleId := "g-carol", displayName := "Carol",
             email := some "No Email", createdAt := 5 },
       { users := [alice, bob,
           { _id := 3, googleId := "g-carol", displayName := "Carol",
             email := some "No Email", createdAt := 5 }],
         records := [], nextId := 4 }) ∧
    (match (verifyCallback none 5 { id := "g-carol", displayName := "Carol", emails := none }
        { users := [alice, bob], records := [], nextId := 3 }).1 with
      | .ok user => user.email
      | .error _ => none) = some "No Email" ∧
    (∃ err, verifyCallback none 5
        { id := "g-dave", displayName := "", emails := some ["dave@example.org"] }
        { users := [alice, bob], records := [], nextId := 3 } =
      (.error err, { users := [alice, bob], records := [], nextId := 3 })) := by
  exact ⟨rfl, rfl, ⟨_, rfl⟩⟩

/-- C10 (amended): find-or-create keeps users unique per external id.  For a
store in which no two users share a `googleId`, with the store available: when a
user with `googleId = profile.id` exists the callback returns that user and
leaves the store unchanged; otherwise, for a non-empty `profile.id` and
`profile.displayName`, it appends exactly one user with `googleId = profile.id`,
`displayName = profile.displayName` and `email` the profile's first email, or
the string "No Email" when the profile has no emails.  Every login, and every
sequence of logins, keeps the googleIds distinct, and a repeated login with the
same profile returns the same user. -/
theorem C10_find_or_create (db : Db) (profile : Profile) (now : Nat)
    (hunique : UniqueGoogleIds db) :
    (∀ u ∈ db.users, u.googleId = profile.id →
      verifyCallback none now profile db = (.ok u, db)) ∧
    ((∀ u ∈ db.users, u.googleId ≠ profile.id) → profile.id ≠ "" →
      profile.displayName ≠ "" →
      ∃ user : UserDoc,
        verifyCallback none now profile db =
          (.ok user, { db with users := db.users ++ [user], nextId := db.nextId + 1 }) ∧
        user.googleId = profile.id ∧ user.displayName = profile.displayName ∧
        (∀ first rest, profile.emails = some (first :: rest) → user.email = some first) ∧
        (profile.emails = none ∨ profile.emails = some [] → user.email = some "No Email")) ∧
    (∀ outage, UniqueGoogleIds (verifyCallback outage now profile db).2) ∧
    (∀ logins, UniqueGoogleIds (loginAll logins db)) ∧
    (∀ user db2, verifyCallback none now profile db = (.ok user, db2) →
      ∀ now2, verifyCallback none now2 profile db2 = (.ok user, db2)) := by
  refine ⟨?_, ?_, ?_, ?_, ?_⟩
  · intro u hu hg
    exact verifyCallback_found now profile db u
      (find_googleId_of_unique db.users profile.id u hunique hu hg)
  · intro hnew hid hname
    obtain ⟨user, huser, hcreate⟩ := User.create_fresh now profile.id profile.displayName
      (newUserEmail profile) db hnew hid hname
    have hf := (find_googleId_none db.users profile.id).mpr hnew
    refine ⟨user, ?_, ?_, ?_, ?_, ?_⟩
    · simp only [verifyCallback, User.findOne, hf, hcreate]
    · rw [huser]
    · rw [huser]
    · intro first rest he
      rw [huser]
      simp [newUserEmail, he]
    · intro he
      rw [huser]
      rcases he with he | he <;> simp [newUserEmail, he]
  · intro outage
    exact verifyCallback_unique outage now profile db hunique
  · intro logins
    exact loginAll_unique logins db hunique
  · intro user db2 h now2
    exact verifyCallback_again now now2 profile db db2 user h

/-- C10 (amended) at a store holding `alice` and `bob`: a login of `alice`
returns her and changes nothing. -/
theorem C10_find_or_create_witness :
    verifyCallback none 9
        { id := "g-alice", displayName := "Alice A.", emails := some ["a@example.org"] }
        { users := [alice, bob], records := [], nextId := 3 } =
      (.ok alice, { users := [alice, bob], records := [], nextId := 3 }) :=
  (C10_find_or_create { users := [alice, bob], records := [], nextId := 3 }
      { id := "g-alice", displayName := "Alice A.", emails := some ["a@example.org"] } 9
      (by decide)).1 alice (by decide) rfl

end Wellbeing
